import Mathlib

/-!
Verification of the reconciliation engine of the repository.

A shallow embedding of `part_importer.py` and
`suppliers/supplier_digikey.py` in Lean 4, together with theorems settling
the frozen specification claims.

Conventions:
* Python dictionaries keyed by strings/naturals are embedded as association
  lists; a dict built from a sequence (last insertion wins) is looked up via
  `List.find?` on the reversed list.
* Floating point prices are embedded as rationals (all price comparisons in
  the source are plain numeric equality).
* External collaborators (the InvenTree repository client, the console
  chooser, supplier network calls) are embedded as explicit inputs/oracles,
  following the interface contracts of the specification.
-/

namespace InvTreeImport

/-- The `ImportResult` enum of `part_importer.py`: the severity outcome enum with
the numeric ranking of the source (`ERROR = 0`, `FAILURE = 1`,
`INCOMPLETE = 2`, `SUCCESS = 3`). -/
inductive ImportResult where
  | ERROR
  | FAILURE
  | INCOMPLETE
  | SUCCESS
deriving DecidableEq, Repr, Fintype

/-- The numeric `.value` of each enum member in the source. -/
def ImportResult.value : ImportResult → Nat
  | .ERROR => 0
  | .FAILURE => 1
  | .INCOMPLETE => 2
  | .SUCCESS => 3

/-- The merge operator `ImportResult.__or__`: returns `self` when `self.value < other.value`,
else `other`. -/
def ImportResult.or (self other : ImportResult) : ImportResult :=
  if self.value < other.value then self else other

/-- The severity rank used by the specification wording
`SUCCESS < INCOMPLETE < FAILURE < ERROR` (larger = more severe). -/
def ImportResult.severityRank : ImportResult → Nat
  | .SUCCESS => 0
  | .INCOMPLETE => 1
  | .FAILURE => 2
  | .ERROR => 3

/-- Left-to-right, non-overlapping replacement of every occurrence of
`pat` by `rep` in a character list — the semantics of Python's
`str.replace` and of `re.sub` with a literal pattern.  (Implemented here by
structural recursion so that the kernel can evaluate it; an empty pattern
leaves the input unchanged, and every pattern in the source is nonempty.) -/
def replaceCharsFuel (pat rep : List Char) : Nat → List Char → List Char
  | 0, s => s
  | _ + 1, [] => []
  | fuel + 1, c :: rest =>
    if pat ≠ [] ∧ pat.isPrefixOf (c :: rest) then
      rep ++ replaceCharsFuel pat rep fuel (rest.drop (pat.length - 1))
    else
      c :: replaceCharsFuel pat rep fuel rest

/-- Replacement entry point: `s.length` fuel always suffices because each
step consumes at least one character of the input. -/
def replaceChars (pat rep s : List Char) : List Char :=
  replaceCharsFuel pat rep s.length s

/-- String version of `replaceChars`. -/
def strReplace (s pat rep : String) : String :=
  ⟨replaceChars pat.data rep.data s.data⟩

/-- Python's `str.strip()`: drop leading and trailing whitespace. -/
def strTrim (s : String) : String :=
  ⟨(((s.data.dropWhile Char.isWhitespace).reverse.dropWhile
      Char.isWhitespace).reverse)⟩

/-- The function `sanitize_parameter_value` of `part_importer.py`: strip surrounding
whitespace, map a lone `-` to the empty string, delete the `±` glyph, then
rewrite `Ohm` and `ohms` to `ohm`. -/
def sanitize_parameter_value (value : String) : String :=
  let value := strTrim value
  if value = "-" then ""
  else
    let value := strReplace value "±" ""
    let value := strReplace (strReplace value "Ohm" "ohm") "ohms" "ohm"
    value

/-! ## Price break synchronization (`PartImporter.setup_price_breaks`) -/

/-- A `SupplierPriceBreak` repository record: the supplier-part it belongs
to, the break quantity, the unit price and its currency. -/
structure SupplierPriceBreakRec where
  part : Nat
  quantity : Nat
  price : ℚ
  price_currency : String
deriving DecidableEq, Repr

/-- The `price_breaks` dict of `setup_price_breaks`, built from the
repository listing keyed by quantity (later entries win, hence the lookup
on the reversed list). -/
def pbLookup (listing : List SupplierPriceBreakRec) (q : Nat) :
    Option SupplierPriceBreakRec :=
  listing.reverse.find? (fun pb => pb.quantity == q)

/-- One iteration of the `setup_price_breaks` loop over the candidate
tiers: an existing record with an equal price is left alone, an existing
record with a different price is saved with the new price and currency,
and a missing quantity gets a freshly created record.  The boolean is the
`updated_pricing` flag. -/
def applyPriceBreakTier (snapshot : List SupplierPriceBreakRec)
    (spPk : Nat) (currency : String)
    (st : List SupplierPriceBreakRec × Bool) (tier : Nat × ℚ) :
    List SupplierPriceBreakRec × Bool :=
  match pbLookup snapshot tier.1 with
  | some pb =>
    if tier.2 = pb.price then st
    else
      (st.1.map (fun r =>
        if r.quantity = tier.1 then
          { r with price := tier.2, price_currency := currency }
        else r),
       true)
  | none =>
    (st.1 ++ [⟨spPk, tier.1, tier.2, currency⟩], true)

/-- The method `PartImporter.setup_price_breaks`: fold the candidate quantity→price
tiers over the existing records; return the resulting records and the
`updated_pricing` flag (the informational note is emitted exactly when the
flag is set). -/
def setup_price_breaks (spPk : Nat) (currency : String)
    (existing : List SupplierPriceBreakRec) (tiers : List (Nat × ℚ)) :
    List SupplierPriceBreakRec × Bool :=
  tiers.foldl (applyPriceBreakTier existing spPk currency) (existing, false)

/-- Whether one candidate tier triggers a repository write: its quantity is
missing from the snapshot, or present with a different price. -/
def tierChangesB (snapshot : List SupplierPriceBreakRec) (tier : Nat × ℚ) :
    Bool :=
  match pbLookup snapshot tier.1 with
  | some pb => pb.price != tier.2
  | none => true

/-! ## The DigiKey supplier adapter (`suppliers/supplier_digikey.py`) -/

/-- Python `str.lower()` (character-wise, which is all the source needs). -/
def strToLower (s : String) : String :=
  ⟨s.data.map Char.toLower⟩

/-- Python `str.startswith(t)`. -/
def strStartsWith (s t : String) : Bool :=
  t.data.isPrefixOf s.data

/-- Python `str.split(sep)` on character lists, driven by fuel (the input
length always suffices). -/
def splitOnCharsFuel (sep : List Char) :
    Nat → List Char → List Char → List (List Char)
  | 0, acc, s => [acc.reverse ++ s]
  | _ + 1, acc, [] => [acc.reverse]
  | fuel + 1, acc, c :: rest =>
    if sep ≠ [] ∧ sep.isPrefixOf (c :: rest) then
      acc.reverse :: splitOnCharsFuel sep fuel [] (rest.drop (sep.length - 1))
    else
      splitOnCharsFuel sep fuel (c :: acc) rest

/-- Python `str.split(sep)` for strings. -/
def strSplitOn (s sep : String) : List String :=
  (splitOnCharsFuel sep.data s.data.length [] s.data).map (⟨·⟩)

/-- Modelled from the spec: the normalized Candidate Part record (`ApiPart`
lives in `suppliers/base.py`, which is not among the sources): description,
image URL, supplier listing URL, SKU, manufacturer name and link, MPN,
available quantity, packaging, category path (root→leaf), raw parameter
mapping, price-break mapping, currency, the lazily-fetched datasheet URL,
and the outcome of the one-shot `finalize()` network round trip (an oracle
input in this embedding; empty strings stand for Python falsy values). -/
structure ApiPart where
  description : String
  image_url : String
  supplier_link : String
  SKU : String
  manufacturer : String
  manufacturer_link : String
  MPN : String
  quantity_available : Nat
  packaging : String
  category_path : List String
  parameters : List (String × String)
  price_breaks : List (Nat × ℚ)
  currency : String
  datasheet_url : String
  finalize_ok : Bool
deriving DecidableEq, Repr

/-- One DigiKey API product record, restricted to the fields
`DigiKey.get_api_part` reads; `is_product_details` tells whether the record
is a `ProductDetailsResponse` (only those carry `media_links`, given as
(media_type, url) pairs). -/
structure DKPart where
  product_description : String
  primary_photo : String
  product_url : String
  digi_key_part_number : String
  manufacturer : String
  manufacturer_part_number : String
  quantity_available : Nat
  manufacturer_public_quantity : Nat
  packaging : String
  category : String
  family : String
  parameters : List (String × String)
  standard_pricing : List (Nat × ℚ)
  is_product_details : Bool
  media_links : List (String × String)
deriving DecidableEq, Repr

/-- The fields of the `digikey.keyword_search` response that
`DigiKey.search` reads. -/
structure DKKeywordResults where
  products : List DKPart
  products_count : Nat
  exact_manufacturer_products : List DKPart
  exact_manufacturer_products_count : Nat
deriving DecidableEq, Repr

/-- The method `DigiKey.get_api_part`: normalize one DigiKey record into an `ApiPart`.
The available quantity adds the manufacturer public quantity; the
manufacturer link comes from the first `Manufacturer Product Page` media
entry of a product-details response; the category path prepends the
category to the ` - `-split family. -/
def DigiKey.get_api_part (currency : String) (p : DKPart) : ApiPart where
  description := p.product_description
  image_url := p.primary_photo
  supplier_link := p.product_url
  SKU := p.digi_key_part_number
  manufacturer := p.manufacturer
  manufacturer_link :=
    if p.is_product_details then
      match p.media_links.find? (fun m => m.1 == "Manufacturer Product Page") with
      | some m => m.2
      | none => ""
    else ""
  MPN := p.manufacturer_part_number
  quantity_available := p.quantity_available + p.manufacturer_public_quantity
  packaging := p.packaging
  category_path := p.category :: strSplitOn p.family " - "
  parameters := p.parameters
  price_breaks := p.standard_pricing
  currency := currency
  datasheet_url := ""
  finalize_ok := true

/-- The exact-MPN filter of `DigiKey.search` (case-insensitive equality
with the search term). -/
def dkExactMatches (search_term : String) (l : List DKPart) : List DKPart :=
  l.filter (fun p =>
    strToLower p.manufacturer_part_number == strToLower search_term)

/-- The MPN-starts-with-term filter of `DigiKey.search`
(case-insensitive). -/
def dkStartMatches (search_term : String) (l : List DKPart) : List DKPart :=
  l.filter (fun p =>
    strStartsWith (strToLower p.manufacturer_part_number)
      (strToLower search_term))

/-- The method `DigiKey.search`: a `product_details` hit short-circuits to a single
candidate with count 1.  Otherwise the keyword-search results are used:
the exact-manufacturer list with its count when nonempty, else the
products whose MPN starts with the search term together with the full
products count; finally, if exactly one candidate matches the term
exactly, the result is narrowed to it with count 1.  The network responses
(`product_details`, `keyword`) are oracle inputs. -/
def DigiKey.search (currency : String) (product_details : Option DKPart)
    (keyword : DKKeywordResults) (search_term : String) :
    List ApiPart × Nat :=
  match product_details with
  | some dkp => ([DigiKey.get_api_part currency dkp], 1)
  | none =>
    let pair :=
      if 0 < keyword.exact_manufacturer_products_count then
        (keyword.exact_manufacturer_products,
         keyword.exact_manufacturer_products_count)
      else
        (dkStartMatches search_term keyword.products,
         keyword.products_count)
    let exact_matches := dkExactMatches search_term pair.1
    if exact_matches.length = 1 then
      (exact_matches.map (DigiKey.get_api_part currency), 1)
    else
      (pair.1.map (DigiKey.get_api_part currency), pair.2)

/-- A DigiKey record with the given MPN and neutral defaults elsewhere,
for concrete inputs. -/
def mkDKPart (mpn : String) : DKPart where
  product_description := ""
  primary_photo := ""
  product_url := ""
  digi_key_part_number := ""
  manufacturer := ""
  manufacturer_part_number := mpn
  quantity_available := 0
  manufacturer_public_quantity := 0
  packaging := ""
  category := ""
  family := ""
  parameters := []
  standard_pricing := []
  is_product_details := false
  media_links := []

/-! ## The repository model

The InvenTree repository client is an external collaborator; the
specification describes it as lookup-by-key plus create/update of records
with stable numeric identifiers, and a dry-run wrapper that turns every
mutating call into a no-op returning synthetic zero identifiers.  The
records below carry exactly the fields `part_importer.py` reads or
writes. -/

/-- A repository `Part` record (name, category, image, attachment tags). -/
structure PartRec where
  pk : Nat
  name : String
  category : Nat
  image : String
  attachment_comments : List String
deriving DecidableEq, Repr

/-- A repository `ManufacturerPart` record. -/
structure ManufacturerPartRec where
  pk : Nat
  MPN : String
  part : Nat
deriving DecidableEq, Repr

/-- A repository `SupplierPart` record (the `manufacturer_part` link is
nullable in the repository). -/
structure SupplierPartRec where
  pk : Nat
  SKU : String
  supplier : Nat
  manufacturer_part : Option Nat
  part : Nat
deriving DecidableEq, Repr

/-- A repository `Parameter` record, keyed by its template name. -/
structure ParameterRec where
  pk : Nat
  part : Nat
  template : String
  data : String
deriving DecidableEq, Repr

/-- The repository state: all records plus a fresh-identifier counter. -/
structure DB where
  parts : List PartRec
  manufacturer_parts : List ManufacturerPartRec
  supplier_parts : List SupplierPartRec
  parameters : List ParameterRec
  price_breaks : List SupplierPriceBreakRec
  stock : List (Nat × Nat × Nat)
  next_pk : Nat
deriving DecidableEq, Repr

/-- Modelled from the spec: `get_supplier_part` of `inventree_helpers.py`
(not among the sources) — lookup of a supplier-part by SKU. -/
def get_supplier_part (db : DB) (sku : String) : Option SupplierPartRec :=
  db.supplier_parts.find? (fun sp => sp.SKU == sku)

/-- Modelled from the spec: `get_manufacturer_part` of
`inventree_helpers.py` — lookup of a manufacturer-part by MPN. -/
def get_manufacturer_part (db : DB) (mpn : String) :
    Option ManufacturerPartRec :=
  db.manufacturer_parts.find? (fun mp => mp.MPN == mpn)

/-- Modelled from the spec: `get_part` of `inventree_helpers.py` — lookup
of a part by name (the importer names parts after the MPN). -/
def get_part (db : DB) (mpn : String) : Option PartRec :=
  db.parts.find? (fun p => p.name == mpn)

/-- A `Part(self.api, pk)` construction: the lazily-fetched part object for a known
identifier (a dangling identifier yields an empty record carrying the
pk, mirroring the lazy object which only holds the pk until accessed). -/
def fetchPart (db : DB) (pk : Nat) : PartRec :=
  (db.parts.find? (fun p => p.pk == pk)).getD ⟨pk, "", 0, "", []⟩

/-- A `ManufacturerPart(self.api, pk)` construction: the lazily-fetched manufacturer-part
object for a known identifier. -/
def fetchManufacturerPart (db : DB) (pk : Nat) : ManufacturerPartRec :=
  (db.manufacturer_parts.find? (fun mp => mp.pk == pk)).getD ⟨pk, "", 0⟩

/-- Modelled from the spec: an Internal Category of `categories.py` (not
among the sources) — one repository category node (`part_category` pk)
with its name and its required parameter names; its known aliases are the
keys of `category_map`. -/
structure Category where
  part_category : Nat
  name : String
  parameters : List String
deriving DecidableEq, Repr

/-- The `datasheets` configuration value (`upload`, `link`, unset/false,
or anything else). -/
inductive DatasheetsMode where
  | upload
  | link
  | disabled
  | invalid
deriving DecidableEq, Repr

/-- Python `dict.get` on an association-list embedding of a string-keyed
dict (later insertions win). -/
def dictGet (m : List (String × List String)) (k : String) : List String :=
  (m.reverse.find? (fun e => e.1 == k)).elim [] Prod.snd

/-- Python `dict.__setitem__` under the `dictGet` reading: appending the
new binding makes it the most recent one. -/
def dictInsert (m : List (String × List String)) (k : String)
    (v : List String) : List (String × List String) :=
  m ++ [(k, v)]

/-- The `PartImporter` configuration and run-scoped tables: interactive and
dry-run flags, the category alias table (`category_map`), the parameter
alias table (`parameter_map`, mapping a name to the names of the parameter
templates it may stand for), the known template names
(`parameter_templates`), the `datasheets` configuration, and the
interactive choosers — oracles standing for `select_category` and
`select_parameter`; a non-interactive run never consults them.
`select_parameter` returns an optional alias to register plus the chosen
value (`none` = skipped). -/
structure ImporterCtx where
  interactive : Bool
  dry_run : Bool
  category_map : List (String × Category)
  parameter_map : List (String × List String)
  parameter_templates : List String
  datasheets : DatasheetsMode
  catChooser : List String → Option Category
  paramChooser : String → Option String × Option String

/-- The table `self.part_category_to_category`: the category table re-indexed by the
repository category pk (a dict built from `category_map.values()`, later
entries winning). -/
def part_category_to_category (ctx : ImporterCtx) (pk : Nat) :
    Option Category :=
  ((ctx.category_map.map Prod.snd).reverse).find?
    (fun c => c.part_category == pk)

/-! ## Parameter reconciliation (`PartImporter.setup_parameters`) -/

/-- A parameter write issued to the repository client. -/
inductive ParamAction where
  | create (part : Nat) (template : String) (data : String)
  | update (pk : Nat) (template : String) (data : String)
deriving DecidableEq, Repr

/-- The template name a parameter write concerns. -/
def ParamAction.template : ParamAction → String
  | .create _ t _ => t
  | .update _ t _ => t

/-- The `existing_parameters` dict of `setup_parameters`: parameters of the
part keyed by template name (later entries win). -/
def epLookup (ps : List ParameterRec) (name : String) : Option ParameterRec :=
  ps.reverse.find? (fun p => p.template == name)

/-- Whether `existing_parameters[name]` exists and carries a non-empty
value (membership in the `already_set_parameters` set). -/
def paramAlreadySet (ps : List ParameterRec) (name : String) : Bool :=
  match epLookup ps name with
  | some p => p.data != ""
  | none => false

/-- The first matching loop of `setup_parameters`: for each raw candidate
parameter, every template its name may stand for is matched to the raw
value when the category requires that template and it is not matched
yet. -/
def matchPhase (parameter_map : List (String × List String))
    (required : List String) :
    List (String × String) → List (String × String) → List (String × String)
  | matched, [] => matched
  | matched, (rawName, value) :: rest =>
    matchPhase parameter_map required
      ((dictGet parameter_map rawName).foldl (fun m tname =>
        if tname ∈ required ∧ (m.find? (fun e => e.1 == tname)).isNone then
          m ++ [(tname, value)]
        else m) matched)
      rest

/-- The interactive rescue loop of `setup_parameters`: each still
unassigned template name is sent to `select_parameter`; a `none` value
skips it, otherwise the name is matched to the chosen value, removed from
the unassigned set, and — when an alias is returned and exactly one
template carries the name — the alias is registered in the parameter
alias table. -/
def interactivePhase (chooser : String → Option String × Option String) :
    List String →
    List (String × String) × List String × List (String × List String) →
    List (String × String) × List String × List (String × List String)
  | [], st => st
  | name :: rest, (matched, unassigned, pmap) =>
    match chooser name with
    | (_, none) => interactivePhase chooser rest (matched, unassigned, pmap)
    | (aliasOpt, some value) =>
      let matched := matched ++ [(name, value)]
      let unassigned := unassigned.erase name
      let pmap :=
        match aliasOpt with
        | none => pmap
        | some al =>
          if (dictGet pmap name).length = 1 then
            dictInsert pmap al (dictGet pmap al ++ dictGet pmap name)
          else pmap
      interactivePhase chooser rest (matched, unassigned, pmap)

/-- The write-out loop of `setup_parameters`: sanitize each matched value
and drop empties; update an existing parameter only when updating is
allowed and the value differs; create a parameter when a template exists;
flag INCOMPLETE for a matched name with no template (suppressed in
dry-run).  (The per-write HTTP failure warnings of the worker pool are
outside this embedding: writes that are issued succeed.) -/
def applyParamsPhase (dry_run update_existing : Bool)
    (templates : List String) (existingPs : List ParameterRec)
    (partPk : Nat) :
    List (String × String) → List ParamAction × ImportResult →
    List ParamAction × ImportResult
  | [], st => st
  | (name, value0) :: rest, (actions, res) =>
    let value := sanitize_parameter_value value0
    if value = "" then
      applyParamsPhase dry_run update_existing templates existingPs partPk
        rest (actions, res)
    else
      match epLookup existingPs name with
      | some ep =>
        if update_existing ∧ ep.data ≠ value then
          applyParamsPhase dry_run update_existing templates existingPs partPk
            rest (actions ++ [.update ep.pk name value], res)
        else
          applyParamsPhase dry_run update_existing templates existingPs partPk
            rest (actions, res)
      | none =>
        if name ∈ templates then
          applyParamsPhase dry_run update_existing templates existingPs partPk
            rest (actions ++ [.create partPk name value], res)
        else if ¬ dry_run then
          applyParamsPhase dry_run update_existing templates existingPs partPk
            rest (actions, res.or .INCOMPLETE)
        else
          applyParamsPhase dry_run update_existing templates existingPs partPk
            rest (actions, res)

/-- Modelled from the spec: one parameter write applied through the
repository client (create assigns the next fresh identifier; update is a
partial-field patch by identifier). -/
def applyParamAction (db : DB) : ParamAction → DB
  | .create part template data =>
    { db with
      parameters := db.parameters ++ [⟨db.next_pk, part, template, data⟩],
      next_pk := db.next_pk + 1 }
  | .update pk _ data =>
    { db with
      parameters := db.parameters.map (fun p =>
        if p.pk == pk then { p with data := data } else p) }

/-- Modelled from the spec: the dry-run wrapper — in dry-run mode every
mutating call is a no-op. -/
def applyParamActions (dry : Bool) (db : DB) (actions : List ParamAction) :
    DB :=
  if dry then db else actions.foldl applyParamAction db

/-- The output of `setup_parameters`: the severity, the repository state,
the issued writes, the finally unmatched required names (reported with the
closing warning), and the possibly-extended parameter alias table. -/
structure SetupParamsOut where
  result : ImportResult
  db : DB
  actions : List ParamAction
  unassigned : List String
  parameter_map : List (String × List String)
deriving Repr

/-- The body of `setup_parameters` once the part's category is known: the
matching, interactive-rescue and write-out phases, with the final
INCOMPLETE when required names stay unmatched. -/
def setup_parameters_core (ctx : ImporterCtx) (db : DB) (partV : PartRec)
    (api_part : ApiPart) (update_existing : Bool) (category : Category) :
    SetupParamsOut :=
  let existingPs := db.parameters.filter (fun p => p.part == partV.pk)
  let matched :=
    matchPhase ctx.parameter_map category.parameters [] api_part.parameters
  let unassigned := category.parameters.filter (fun n =>
    (matched.find? (fun e => e.1 == n)).isNone &&
    ! paramAlreadySet existingPs n)
  let st :=
    if unassigned ≠ [] ∧ ctx.interactive then
      interactivePhase ctx.paramChooser unassigned
        (matched, unassigned, ctx.parameter_map)
    else (matched, unassigned, ctx.parameter_map)
  let ar := applyParamsPhase ctx.dry_run update_existing
    ctx.parameter_templates existingPs partV.pk st.1 ([], .SUCCESS)
  let res := if st.2.1 ≠ [] then ar.2.or .INCOMPLETE else ar.2
  ⟨res, applyParamActions ctx.dry_run db ar.1, ar.1, st.2.1, st.2.2⟩

/-- The method `PartImporter.setup_parameters`: early SUCCESS in dry-run with no part
object; FAILURE when the part's category is not in the configuration;
otherwise `setup_parameters_core`. -/
def setup_parameters (ctx : ImporterCtx) (db : DB) (part : Option PartRec)
    (api_part : ApiPart) (update_existing : Bool) : SetupParamsOut :=
  if ctx.dry_run ∧ part = none then
    ⟨.SUCCESS, db, [], [], ctx.parameter_map⟩
  else
    let partV := part.getD ⟨0, "", 0, "", []⟩
    match part_category_to_category ctx partV.category with
    | none => ⟨.FAILURE, db, [], [], ctx.parameter_map⟩
    | some category =>
      setup_parameters_core ctx db partV api_part update_existing category

/-- A candidate part with the given SKU, MPN and raw parameters, and
neutral defaults elsewhere, for concrete inputs. -/
def mkApiPart (sku mpn : String) (params : List (String × String)) :
    ApiPart where
  description := ""
  image_url := ""
  supplier_link := ""
  SKU := sku
  manufacturer := "ACME"
  manufacturer_link := ""
  MPN := mpn
  quantity_available := 0
  packaging := ""
  category_path := ["Passives"]
  parameters := params
  price_breaks := []
  currency := "EUR"
  datasheet_url := ""
  finalize_ok := true

/-- A concrete importer context for witnesses: non-interactive, not
dry-run, one category alias (`Passives`, pk 5, requiring `Resistance`),
empty parameter alias table, no templates, choosers that always skip. -/
def ctxW : ImporterCtx where
  interactive := false
  dry_run := false
  category_map := [("Passives", ⟨5, "Passives", ["Resistance"]⟩)]
  parameter_map := []
  parameter_templates := []
  datasheets := .disabled
  catChooser := fun _ => none
  paramChooser := fun _ => (none, none)

/-- A concrete repository with one part (pk 1, category 5) and nothing
else. -/
def dbW : DB where
  parts := [⟨1, "P1", 5, "", []⟩]
  manufacturer_parts := []
  supplier_parts := []
  parameters := []
  price_breaks := []
  stock := []
  next_pk := 10

/-! ## Entity resolution (`PartImporter.create_manufacturer_part` and the
manufacturer-part precedence of `import_supplier_part`) -/

/-- The lookup `category_map.get(key)`: the known category for an alias string
(a dict, later entries winning). -/
def cmGet (m : List (String × Category)) (k : String) : Option Category :=
  (m.reverse.find? (fun e => e.1 == k)).map Prod.snd

/-- The category-resolution loop of `create_manufacturer_part`: try each
path segment from leaf to root against the category alias table, stopping
at the first hit. -/
def resolveCategoryAlias (m : List (String × Category))
    (path : List String) : Option Category :=
  path.reverse.findSome? (fun seg => cmGet m seg)

/-- Modelled from the spec: `update_object_data(part, part_data)` —
a partial-field patch of the part through the repository client
(`get_part_data` names the part after the MPN); a no-op in dry-run. -/
def updatePartData (dry : Bool) (db : DB) (pk : Nat) (api_part : ApiPart) :
    DB :=
  if dry then db
  else
    { db with
      parts := db.parts.map (fun p =>
        if p.pk == pk then { p with name := api_part.MPN } else p) }

/-- Modelled from the spec: `Part.create` — a new part record under a
fresh identifier; in dry-run the repository is untouched and the returned
object carries the synthetic zero identifier. -/
def createPart (dry : Bool) (db : DB) (categoryPk : Nat)
    (api_part : ApiPart) : PartRec × DB :=
  if dry then (⟨0, api_part.MPN, categoryPk, "", []⟩, db)
  else
    (⟨db.next_pk, api_part.MPN, categoryPk, "", []⟩,
     { db with
       parts := db.parts ++ [⟨db.next_pk, api_part.MPN, categoryPk, "", []⟩],
       next_pk := db.next_pk + 1 })

/-- Modelled from the spec: `ManufacturerPart.create` — a new
manufacturer-part record for the given part under a fresh identifier
(`get_manufacturer_part_data` carries the MPN); dry-run as above.  (The
manufacturer company record created by `create_manufacturer` carries no
information any claim mentions and is not tracked.) -/
def createMP (dry : Bool) (db : DB) (partPk : Nat) (api_part : ApiPart) :
    ManufacturerPartRec × DB :=
  if dry then (⟨0, api_part.MPN, partPk⟩, db)
  else
    (⟨db.next_pk, api_part.MPN, partPk⟩,
     { db with
       manufacturer_parts :=
         db.manufacturer_parts ++ [⟨db.next_pk, api_part.MPN, partPk⟩],
       next_pk := db.next_pk + 1 })

/-- The output of `create_manufacturer_part`: the outcome (FAILURE, or the
new manufacturer-part and the part used), the repository state, whether
the interactive category prompt ran, and the category alias registered (if
any) as (alias string, category pk). -/
structure CMPOut where
  outcome : Except ImportResult (ManufacturerPartRec × PartRec)
  db : DB
  prompted : Bool
  aliasAdded : Option (String × Nat)
deriving Repr

/-- The method `PartImporter.create_manufacturer_part`: reuse the supplied part or an
existing part matching the MPN (updating its data); otherwise resolve the
category from leaf to root over the alias table, falling back to the
interactive chooser (registering the leaf segment as a new alias on
success) or failing with FAILURE when non-interactive or skipped; then
create the part (when new) and a manufacturer-part. -/
def create_manufacturer_part (ctx : ImporterCtx) (db : DB)
    (api_part : ApiPart) (part : Option PartRec) : CMPOut :=
  let found := match part with
    | some p => some p
    | none => get_part db api_part.MPN
  match found with
  | some p =>
    let db2 := updatePartData ctx.dry_run db p.pk api_part
    let p2 := { p with name := api_part.MPN }
    let md := createMP ctx.dry_run db2 p2.pk api_part
    ⟨.ok (md.1, p2), md.2, false, none⟩
  | none =>
    match resolveCategoryAlias ctx.category_map api_part.category_path with
    | some category =>
      let pd := createPart ctx.dry_run db category.part_category api_part
      let md := createMP ctx.dry_run pd.2 pd.1.pk api_part
      ⟨.ok (md.1, pd.1), md.2, false, none⟩
    | none =>
      if ctx.interactive = false then ⟨.error .FAILURE, db, false, none⟩
      else
        match ctx.catChooser api_part.category_path with
        | none => ⟨.error .FAILURE, db, true, none⟩
        | some category =>
          let pd := createPart ctx.dry_run db category.part_category api_part
          let md := createMP ctx.dry_run pd.2 pd.1.pk api_part
          ⟨.ok (md.1, pd.1), md.2, true,
            some (api_part.category_path.getLastD "",
              category.part_category)⟩

/-! ## `PartImporter.import_supplier_part` -/

/-- Modelled from the spec:
`update_object_data(manufacturer_part, {"part": part.pk})` — relink a
manufacturer-part to another part; no-op in dry-run. -/
def relinkMP (dry : Bool) (db : DB) (mpPk newPart : Nat) : DB :=
  if dry then db
  else
    { db with
      manufacturer_parts := db.manufacturer_parts.map (fun mp =>
        if mp.pk == mpPk then { mp with part := newPart } else mp) }

/-- Modelled from the spec: `upload_image` — set the part's image; no-op
in dry-run. -/
def setPartImage (dry : Bool) (db : DB) (pk : Nat) (url : String) : DB :=
  if dry then db
  else
    { db with
      parts := db.parts.map (fun p =>
        if p.pk == pk then { p with image := url } else p) }

/-- Modelled from the spec: `upload_datasheet` / `addLinkAttachment` —
attach a datasheet-tagged attachment to the part; no-op in dry-run. -/
def addDatasheetAttachment (dry : Bool) (db : DB) (pk : Nat) : DB :=
  if dry then db
  else
    { db with
      parts := db.parts.map (fun p =>
        if p.pk == pk then
          { p with attachment_comments := p.attachment_comments ++ ["datasheet"] }
        else p) }

/-- Modelled from the spec: `SupplierPart.create` — a new supplier-part
record under a fresh identifier (synthetic zero in dry-run). -/
def createSupplierPart (dry : Bool) (db : DB) (data : SupplierPartRec) :
    SupplierPartRec × DB :=
  if dry then ({ data with pk := 0 }, db)
  else
    ({ data with pk := db.next_pk },
     { db with
       supplier_parts := db.supplier_parts ++ [{ data with pk := db.next_pk }],
       next_pk := db.next_pk + 1 })

/-- Modelled from the spec: `update_object_data(supplier_part, data)` —
patch the existing supplier-part record; no-op in dry-run. -/
def updateSupplierPart (dry : Bool) (db : DB) (pk : Nat)
    (data : SupplierPartRec) : DB :=
  if dry then db
  else
    { db with
      supplier_parts := db.supplier_parts.map (fun sp =>
        if sp.pk == pk then { data with pk := pk } else sp) }

/-- The method `setup_price_breaks` routed through the repository: list the breaks of
the supplier part, run the tier fold, store the result (no-op in
dry-run). -/
def applyPriceBreaksDB (dry : Bool) (db : DB) (spPk : Nat)
    (api_part : ApiPart) : DB :=
  if dry then db
  else
    { db with
      price_breaks :=
        db.price_breaks.filter (fun pb => !(pb.part == spPk)) ++
        (setup_price_breaks spPk api_part.currency
          (db.price_breaks.filter (fun pb => pb.part == spPk))
          api_part.price_breaks).1 }

/-- Modelled from the spec: `add_stock` of `inventree_helpers.py` —
record added stock; no-op in dry-run. -/
def addStockDB (dry : Bool) (db : DB) (loc part amount : Nat) : DB :=
  if dry then db else { db with stock := db.stock ++ [(loc, part, amount)] }

/-- The result of the manufacturer-part determination (lines 147–164 of
`part_importer.py`): FAILURE, or the manufacturer-part to use plus the
(possibly newly created) part; the repository state and the interactive
category effects ride along. -/
structure MPResolution where
  outcome : Except ImportResult (ManufacturerPartRec × Option PartRec)
  db : DB
  prompted : Bool
  aliasAdded : Option (String × Nat)
deriving Repr

/-- The fallthrough of the precedence (candidate's SKU has no usable
supplier-part link): reuse the MPN's manufacturer-part, else the one
established earlier in this import call, else finalize the candidate and
create part and manufacturer-part. -/
def resolve_manufacturer_part_tail (ctx : ImporterCtx) (db : DB)
    (established : Option ManufacturerPartRec) (api_part : ApiPart)
    (part : Option PartRec) : MPResolution :=
  match get_manufacturer_part db api_part.MPN with
  | some mp => ⟨.ok (mp, part), db, false, none⟩
  | none =>
    match established with
    | some mp => ⟨.ok (mp, part), db, false, none⟩
    | none =>
      if api_part.finalize_ok = false then ⟨.error .FAILURE, db, false, none⟩
      else
        let c := create_manufacturer_part ctx db api_part part
        match c.outcome with
        | .error r => ⟨.error r, c.db, c.prompted, c.aliasAdded⟩
        | .ok (mp, p) => ⟨.ok (mp, some p), c.db, c.prompted, c.aliasAdded⟩

/-- The manufacturer-part precedence of `import_supplier_part`: a
supplier-part existing for the candidate's SKU with a non-null
manufacturer-part link wins; otherwise the fallthrough above. -/
def resolve_manufacturer_part (ctx : ImporterCtx) (db : DB)
    (established : Option ManufacturerPartRec) (api_part : ApiPart)
    (part : Option PartRec) : MPResolution :=
  match get_supplier_part db api_part.SKU with
  | some sp =>
    match sp.manufacturer_part with
    | some mpid =>
      ⟨.ok (fetchManufacturerPart db mpid, part), db, false, none⟩
    | none => resolve_manufacturer_part_tail ctx db established api_part part
  | none => resolve_manufacturer_part_tail ctx db established api_part part

/-- The result of `import_supplier_part`: severity, repository state, the
established manufacturer-part afterwards, and the supplier-part data that
was written (`none` when an early return happened before the write). -/
structure ISPOut where
  result : ImportResult
  db : DB
  established : Option ManufacturerPartRec
  payload : Option SupplierPartRec
deriving Repr

/-- The method `PartImporter.import_supplier_part`: resolve the manufacturer-part
(early FAILURE propagates and leaves the established manufacturer-part
untouched); outside dry-run fetch/relink the part, re-apply the candidate
part data when the manufacturer-part changed against the established one
(FAILURE when the second finalize fails), upload a missing image and a
missing datasheet attachment per configuration; reconcile parameters when
the candidate has any; establish the manufacturer-part; create or update
the supplier-part keyed by SKU (with the synthetic zero part id in
dry-run); synchronize price breaks; and optionally add stock. -/
def import_supplier_part (ctx : ImporterCtx) (db0 : DB)
    (established : Option ManufacturerPartRec) (supplier : Nat)
    (api_part : ApiPart) (partArg : Option PartRec)
    (update_stock_location : Option Nat) (update_stock_amount : Nat) :
    ISPOut :=
  let supplier_part0 := get_supplier_part db0 api_part.SKU
  let r := resolve_manufacturer_part ctx db0 established api_part partArg
  match r.outcome with
  | .error res => ⟨res, r.db, established, none⟩
  | .ok (manufacturer_part, partOpt) =>
    let update_part : Bool :=
      match established with
      | none => true
      | some e => e.pk != manufacturer_part.pk
    let step : Except (ImportResult × DB) (Option PartRec × DB) :=
      if ctx.dry_run then .ok (partOpt, r.db)
      else
        let pd : PartRec × DB :=
          match partOpt with
          | none => (fetchPart r.db manufacturer_part.part, r.db)
          | some p =>
            if p.pk != manufacturer_part.part then
              (p, relinkMP false r.db manufacturer_part.pk p.pk)
            else (p, r.db)
        if update_part ∧ api_part.finalize_ok = false then
          .error (.FAILURE, pd.2)
        else
          let db := if update_part then
              updatePartData false pd.2 pd.1.pk api_part
            else pd.2
          let part := if update_part then
              { pd.1 with name := api_part.MPN }
            else pd.1
          let db :=
            if part.image = "" ∧ api_part.image_url ≠ "" then
              setPartImage false db part.pk api_part.image_url
            else db
          let db :=
            if "datasheet" ∉ (fetchPart db part.pk).attachment_comments ∧
                api_part.datasheet_url ≠ "" then
              match ctx.datasheets with
              | .upload => addDatasheetAttachment false db part.pk
              | .link => addDatasheetAttachment false db part.pk
              | .disabled => db
              | .invalid => db
            else db
          .ok (some part, db)
    match step with
    | .error rd => ⟨rd.1, rd.2, established, none⟩
    | .ok pdb =>
      let sp :=
        if api_part.parameters ≠ [] then
          setup_parameters ctx pdb.2 pdb.1 api_part update_part
        else ⟨.SUCCESS, pdb.2, [], [], ctx.parameter_map⟩
      let res := ImportResult.SUCCESS.or sp.result
      let partId := if ctx.dry_run then 0
        else (pdb.1.getD ⟨0, "", 0, "", []⟩).pk
      let data : SupplierPartRec :=
        ⟨0, api_part.SKU, supplier, some manufacturer_part.pk, partId⟩
      let spw : SupplierPartRec × DB :=
        match supplier_part0 with
        | some sp0 =>
          ({ data with pk := sp0.pk },
           updateSupplierPart ctx.dry_run sp.db sp0.pk data)
        | none => createSupplierPart ctx.dry_run sp.db data
      let db3 := applyPriceBreaksDB ctx.dry_run spw.2 spw.1.pk api_part
      let db4 :=
        match update_stock_location with
        | some loc => addStockDB ctx.dry_run db3 loc partId update_stock_amount
        | none => db3
      ⟨res, db4, some manufacturer_part, some spw.1⟩

/-- The manufacturer-part precedence exactly as the specification words
it: its step 1 fires whenever a supplier-part exists for the SKU and
asserts that the supplier-part's linked manufacturer-part is reused —
silently assuming such a link exists. -/
inductive SpecMPChoice where
  | reuseLinked (link : Option Nat)
  | reuseMPN (pk : Nat)
  | reuseEstablished (pk : Nat)
  | createNew
deriving DecidableEq, Repr

/-- The specification's four-step precedence, transcribed literally from
its words (for comparison with `resolve_manufacturer_part`). -/
def statedPrecedence (db : DB) (established : Option ManufacturerPartRec)
    (api_part : ApiPart) : SpecMPChoice :=
  match get_supplier_part db api_part.SKU with
  | some sp => .reuseLinked sp.manufacturer_part
  | none =>
    match get_manufacturer_part db api_part.MPN with
    | some mp => .reuseMPN mp.pk
    | none =>
      match established with
      | some mp => .reuseEstablished mp.pk
      | none => .createNew

/-- A repository holding a supplier-part for SKU `S` with a null
manufacturer-part link, and a manufacturer-part for MPN `M`. -/
def dbNullLink : DB where
  parts := [⟨5, "M", 5, "", []⟩]
  manufacturer_parts := [⟨7, "M", 5⟩]
  supplier_parts := [⟨1, "S", 2, none, 5⟩]
  parameters := []
  price_breaks := []
  stock := []
  next_pk := 100

/-- A context whose single known category (pk 5) requires the parameter
`Resistance`; non-interactive, not dry-run. -/
def ctxC9 : ImporterCtx where
  interactive := false
  dry_run := false
  category_map := [("Passives", ⟨5, "Passives", ["Resistance"]⟩)]
  parameter_map := []
  parameter_templates := []
  datasheets := .disabled
  catChooser := fun _ => none
  paramChooser := fun _ => (none, none)

/-- A repository with a part (pk 5, category 5, named `M1`) and its
manufacturer-part (pk 7, MPN `M1`). -/
def dbC9 : DB where
  parts := [⟨5, "M1", 5, "", []⟩]
  manufacturer_parts := [⟨7, "M1", 5⟩]
  supplier_parts := []
  parameters := []
  price_breaks := []
  stock := []
  next_pk := 50

/-! ## The import orchestrator (`PartImporter.import_part`) -/

/-- Modelled from the spec: one entry of the concurrent search dispatch
of `search` from `suppliers/__init__.py` (not among the sources) — the
supplier pk together with the eventual results and total count of its
already-issued search call, yielded in registration order. -/
structure SupplierSearch where
  supplier : Nat
  results : List ApiPart
  result_count : Nat
deriving DecidableEq, Repr

/-- The observable per-supplier events of one `import_part` call:
collecting a supplier's search results (`got`), attempting
`import_supplier_part` on a selected candidate (`attempted`), and the
drain loop that waits on every still-outstanding search call before an
ERROR return (`waitedAll`). -/
inductive OrchEvent where
  | got (idx : Nat)
  | attempted (idx : Nat)
  | waitedAll
deriving DecidableEq, Repr

/-- The outcome of candidate selection for one supplier. -/
inductive Selection where
  | empty
  | skipped
  | chosen (p : ApiPart)
deriving DecidableEq, Repr

/-- Candidate selection (`import_part` lines 70–87): no results skips
silently; a single result is auto-selected; multiple results consult the
interactive chooser over the first `max_results` entries (`none` = the
skip entry); a non-interactive run never guesses. -/
def selectCandidate (interactive : Bool) (maxResults : Nat)
    (chooser : List ApiPart → Option ApiPart) (results : List ApiPart) :
    Selection :=
  match results with
  | [] => .empty
  | [p] => .chosen p
  | _ =>
    if interactive then
      match chooser (results.take maxResults) with
      | some p => .chosen p
      | none => .skipped
    else .skipped

/-- One `import_supplier_part` invocation as the orchestrator sees it:
either an `HTTPError` was raised (`.error`), or a severity and the
updated repository state and established manufacturer-part came back. -/
def ImportStep : Type :=
  DB → Option ManufacturerPartRec → Nat → ApiPart →
    Except Unit (ImportResult × DB × Option ManufacturerPartRec)

/-- The orchestrator state threaded through the supplier loop. -/
structure OrchState where
  result : ImportResult
  db : DB
  established : Option ManufacturerPartRec
  events : List OrchEvent
deriving Repr

/-- The supplier loop of `import_part`: per supplier, get the search
results, select a candidate (empty skips, a skipped selection degrades to
INCOMPLETE), run `import_supplier_part`; an `HTTPError` sets the severity
to ERROR, and an ERROR severity drains all outstanding search calls and
returns immediately, while any other severity continues with the next
supplier. -/
def import_part_loop (step : ImportStep) (interactive : Bool)
    (maxResults : Nat) (chooser : List ApiPart → Option ApiPart) :
    OrchState → Nat → List SupplierSearch → OrchState
  | st, _, [] => st
  | st, idx, s :: rest =>
    let st1 : OrchState := { st with events := st.events ++ [.got idx] }
    match selectCandidate interactive maxResults chooser s.results with
    | .empty =>
      import_part_loop step interactive maxResults chooser st1 (idx + 1) rest
    | .skipped =>
      import_part_loop step interactive maxResults chooser
        { st1 with result := st1.result.or .INCOMPLETE } (idx + 1) rest
    | .chosen p =>
      let st2 : OrchState :=
        { st1 with events := st1.events ++ [.attempted idx] }
      match step st2.db st2.established s.supplier p with
      | .ok rds =>
        let rNew := st2.result.or rds.1
        if rNew = .ERROR then
          { result := .ERROR, db := rds.2.1, established := rds.2.2,
            events := st2.events ++ [.waitedAll] }
        else
          import_part_loop step interactive maxResults chooser
            { result := rNew, db := rds.2.1, established := rds.2.2,
              events := st2.events } (idx + 1) rest
      | .error _ =>
        { st2 with result := .ERROR, events := st2.events ++ [.waitedAll] }

/-- The method `PartImporter.import_part`: run the supplier loop from a SUCCESS
severity with no established manufacturer-part; if the whole call never
established one, degrade to at least FAILURE. -/
def import_part (step : ImportStep) (interactive : Bool) (maxResults : Nat)
    (chooser : List ApiPart → Option ApiPart) (db : DB)
    (searches : List SupplierSearch) : OrchState :=
  let out := import_part_loop step interactive maxResults chooser
    ⟨.SUCCESS, db, none, []⟩ 0 searches
  if out.established = none then
    { out with result := out.result.or .FAILURE }
  else out

/-- The concrete `ImportStep` given by `import_supplier_part` (no
`HTTPError` is raised in this exception-free embedding). -/
def realStep (ctx : ImporterCtx) (existing_part : Option PartRec)
    (loc : Option Nat) (amt : Nat) : ImportStep :=
  fun db est supplier api =>
    let out := import_supplier_part ctx db est supplier api existing_part
      loc amt
    .ok (out.result, out.db, out.established)

/-- The repository used by the consolidation counterexample: a
pre-existing part (pk 5) with manufacturer-part 7 (MPN `M2`) and a
supplier-part for SKU `S2` linking manufacturer-part 7. -/
def dbC1 : DB where
  parts := [⟨5, "M2", 5, "", []⟩]
  manufacturer_parts := [⟨7, "M2", 5⟩]
  supplier_parts := [⟨1, "S2", 2, some 7, 5⟩]
  parameters := []
  price_breaks := []
  stock := []
  next_pk := 100

/-- Three suppliers, each returning a single candidate: a fresh one
(`S1`/`M1`), one whose SKU already exists linking manufacturer-part 7
(`S2`/`M2`), and another fresh one (`S3`/`M3`). -/
def searchesC1 : List SupplierSearch :=
  [⟨11, [mkApiPart "S1" "M1" []], 1⟩,
   ⟨12, [mkApiPart "S2" "M2" []], 1⟩,
   ⟨13, [mkApiPart "S3" "M3" []], 1⟩]

/-! ## Theorems -/

/-- Claim C4: the `ImportResult` merge operator `__or__` is commutative,
associative and idempotent; merging anything with `ERROR` gives `ERROR`;
and merging always returns the more severe operand under the order
`SUCCESS < INCOMPLETE < FAILURE < ERROR`. -/
theorem importResult_merge_laws :
    (∀ x y : ImportResult, x.or y = y.or x) ∧
    (∀ x y z : ImportResult, (x.or y).or z = x.or (y.or z)) ∧
    (∀ x : ImportResult, x.or x = x) ∧
    (∀ x : ImportResult, x.or .ERROR = .ERROR) ∧
    (∀ x y : ImportResult,
      (x.or y = x ∨ x.or y = y) ∧
      (x.or y).severityRank = max x.severityRank y.severityRank) := by
  decide

/-- Claim C8, counterexample: the specification states
`sanitize(" 10 ± 5% ") == "10 5%"`, but the source only deletes the `±`
glyph, leaving the whitespace on both of its sides, so the result is
`"10  5%"` (two spaces). -/
theorem sanitize_tolerance_counterexample :
    sanitize_parameter_value " 10 ± 5% " = "10  5%" ∧
    ("10  5%" : String) ≠ "10 5%" := by
  constructor
  · decide
  · decide

/-- Claim C8, amended: the sanitizer trims whitespace, maps a lone `-` to
the empty value, deletes the `±` tolerance glyph (leaving any surrounding
whitespace in place, so `" 10 ± 5% "` becomes `"10  5%"` with two spaces),
and normalizes `Ohm`/`ohms` to `ohm`. -/
theorem sanitize_equations :
    sanitize_parameter_value "-" = "" ∧
    sanitize_parameter_value " 10 ± 5% " = "10  5%" ∧
    sanitize_parameter_value "10 Ohm" = "10 ohm" ∧
    sanitize_parameter_value "10 ohms" = "10 ohm" := by
  refine ⟨by decide, by decide, by decide, by decide⟩

theorem applyPriceBreakTier_mem (snapshot : List SupplierPriceBreakRec)
    (spPk : Nat) (currency : String) (st : List SupplierPriceBreakRec × Bool)
    (t : Nat × ℚ) (r : SupplierPriceBreakRec) (hr : r ∈ st.1)
    (hq : t.1 = r.quantity →
      match pbLookup snapshot t.1 with
      | some pb => pb.price = t.2 ∨ (r.price = t.2 ∧ r.price_currency = currency)
      | none => True) :
    r ∈ (applyPriceBreakTier snapshot spPk currency st t).1 := by
  unfold applyPriceBreakTier
  split
  case h_1 pb hpb =>
    split
    · exact hr
    case isFalse hne =>
      simp only [List.mem_map]
      refine ⟨r, hr, ?_⟩
      by_cases hqq : r.quantity = t.1
      · have hmatch := hq hqq.symm
        rw [hpb] at hmatch
        rcases hmatch with h | ⟨h1, h2⟩
        · exact absurd h.symm hne
        · rw [if_pos hqq]
          cases r
          simp only at h1 h2
          simp [h1, h2]
      · rw [if_neg hqq]
  case h_2 hpb =>
    exact List.mem_append_left _ hr

theorem priceBreakFold_mem (snapshot : List SupplierPriceBreakRec)
    (spPk : Nat) (currency : String) (r : SupplierPriceBreakRec)
    (tiers : List (Nat × ℚ)) (st : List SupplierPriceBreakRec × Bool)
    (hr : r ∈ st.1)
    (hq : ∀ t ∈ tiers, t.1 = r.quantity →
      match pbLookup snapshot t.1 with
      | some pb => pb.price = t.2 ∨ (r.price = t.2 ∧ r.price_currency = currency)
      | none => True) :
    r ∈ (tiers.foldl (applyPriceBreakTier snapshot spPk currency) st).1 := by
  induction tiers generalizing st with
  | nil => exact hr
  | cons t rest ih =>
    simp only [List.foldl_cons]
    exact ih _
      (applyPriceBreakTier_mem snapshot spPk currency st t r hr
        (hq t (List.mem_cons_self t rest)))
      (fun t' ht' => hq t' (List.mem_cons_of_mem t ht'))

theorem applyPriceBreakTier_quantity (snapshot : List SupplierPriceBreakRec)
    (spPk : Nat) (currency : String) (st : List SupplierPriceBreakRec × Bool)
    (t : Nat × ℚ) (r : SupplierPriceBreakRec) (hr : r ∈ st.1) :
    ∃ r2 ∈ (applyPriceBreakTier snapshot spPk currency st t).1,
      r2.quantity = r.quantity := by
  unfold applyPriceBreakTier
  split
  · split
    · exact ⟨r, hr, rfl⟩
    · refine ⟨_, List.mem_map_of_mem _ hr, ?_⟩
      by_cases hqq : r.quantity = t.1
      · simp [if_pos hqq, hqq]
      · simp [if_neg hqq]
  · exact ⟨r, List.mem_append_left _ hr, rfl⟩

theorem priceBreakFold_quantity (snapshot : List SupplierPriceBreakRec)
    (spPk : Nat) (currency : String) (tiers : List (Nat × ℚ))
    (st : List SupplierPriceBreakRec × Bool) (r : SupplierPriceBreakRec)
    (hr : r ∈ st.1) :
    ∃ r2 ∈ (tiers.foldl (applyPriceBreakTier snapshot spPk currency) st).1,
      r2.quantity = r.quantity := by
  induction tiers generalizing st r with
  | nil => exact ⟨r, hr, rfl⟩
  | cons t rest ih =>
    simp only [List.foldl_cons]
    obtain ⟨r2, hr2, hq2⟩ :=
      applyPriceBreakTier_quantity snapshot spPk currency st t r hr
    obtain ⟨r3, hr3, hq3⟩ := ih _ r2 hr2
    exact ⟨r3, hr3, hq3.trans hq2⟩

theorem applyPriceBreakTier_flag (snapshot : List SupplierPriceBreakRec)
    (spPk : Nat) (currency : String) (st : List SupplierPriceBreakRec × Bool)
    (t : Nat × ℚ) :
    (applyPriceBreakTier snapshot spPk currency st t).2 =
      (st.2 || tierChangesB snapshot t) := by
  unfold applyPriceBreakTier tierChangesB
  split
  case h_1 pb hpb =>
    split
    case isTrue heq => simp [heq]
    case isFalse hne =>
      have : pb.price ≠ t.2 := fun h => hne h.symm
      simp [bne_iff_ne, this]
  case h_2 hpb => simp

theorem priceBreakFold_flag (snapshot : List SupplierPriceBreakRec)
    (spPk : Nat) (currency : String) (tiers : List (Nat × ℚ))
    (st : List SupplierPriceBreakRec × Bool) :
    (tiers.foldl (applyPriceBreakTier snapshot spPk currency) st).2 =
      (st.2 || tiers.any (tierChangesB snapshot)) := by
  induction tiers generalizing st with
  | nil => simp
  | cons t rest ih =>
    simp only [List.foldl_cons, List.any_cons]
    rw [ih, applyPriceBreakTier_flag]
    simp [Bool.or_assoc]

theorem applyPriceBreakTier_create_mem (snapshot : List SupplierPriceBreakRec)
    (spPk : Nat) (currency : String) (st : List SupplierPriceBreakRec × Bool)
    (t : Nat × ℚ) (hnone : pbLookup snapshot t.1 = none) :
    (⟨spPk, t.1, t.2, currency⟩ : SupplierPriceBreakRec) ∈
      (applyPriceBreakTier snapshot spPk currency st t).1 := by
  unfold applyPriceBreakTier
  split
  case h_1 pb2 hpb2 => rw [hnone] at hpb2; cases hpb2
  case h_2 _ => exact List.mem_append_right _ (List.mem_singleton.mpr rfl)

theorem applyPriceBreakTier_update_mem (snapshot : List SupplierPriceBreakRec)
    (spPk : Nat) (currency : String) (st : List SupplierPriceBreakRec × Bool)
    (t : Nat × ℚ) (pb r : SupplierPriceBreakRec)
    (hpb : pbLookup snapshot t.1 = some pb) (hne : pb.price ≠ t.2)
    (hr : r ∈ st.1) (hrq : r.quantity = t.1) :
    ({ r with price := t.2, price_currency := currency } :
        SupplierPriceBreakRec) ∈
      (applyPriceBreakTier snapshot spPk currency st t).1 := by
  unfold applyPriceBreakTier
  split
  case h_1 pb2 hpb2 =>
    rw [hpb] at hpb2
    injection hpb2 with hpb2
    subst hpb2
    rw [if_neg (fun h => hne h.symm)]
    simp only [List.mem_map]
    exact ⟨r, hr, by rw [if_pos hrq]⟩
  case h_2 hnone2 => rw [hpb] at hnone2; cases hnone2

theorem priceBreakFold_creates (existing : List SupplierPriceBreakRec)
    (spPk : Nat) (currency : String) (tiers : List (Nat × ℚ)) (q : Nat) (p : ℚ)
    (st : List SupplierPriceBreakRec × Bool)
    (hmem : (q, p) ∈ tiers) (hnone : pbLookup existing q = none)
    (huniq : ∀ t ∈ tiers, t.1 = q → t.2 = p) :
    (⟨spPk, q, p, currency⟩ : SupplierPriceBreakRec) ∈
      (tiers.foldl (applyPriceBreakTier existing spPk currency) st).1 := by
  induction tiers generalizing st with
  | nil => cases hmem
  | cons t rest ih =>
    simp only [List.foldl_cons]
    by_cases ht : t.1 = q
    · have ht2 : t.2 = p := huniq t (List.mem_cons_self t rest) ht
      refine priceBreakFold_mem existing spPk currency _ rest _ ?_ ?_
      · have := applyPriceBreakTier_create_mem existing spPk currency st t
          (by rw [ht]; exact hnone)
        rw [ht, ht2] at this
        exact this
      · intro t' ht' hq'
        simp only at hq'
        simp only [hq', hnone]
    · have hrest : (q, p) ∈ rest := by
        rcases List.mem_cons.mp hmem with heq | h
        · exact absurd (congrArg Prod.fst heq.symm) ht
        · exact h
      exact ih _ hrest (fun t' ht' => huniq t' (List.mem_cons_of_mem t ht'))

theorem priceBreakFold_updates (existing : List SupplierPriceBreakRec)
    (spPk : Nat) (currency : String) (tiers : List (Nat × ℚ)) (q : Nat) (p : ℚ)
    (pb r : SupplierPriceBreakRec) (st : List SupplierPriceBreakRec × Bool)
    (hmem : (q, p) ∈ tiers) (hpb : pbLookup existing q = some pb)
    (hne : pb.price ≠ p) (huniq : ∀ t ∈ tiers, t.1 = q → t.2 = p)
    (hr : r ∈ st.1) (hrq : r.quantity = q) :
    ({ r with price := p, price_currency := currency } : SupplierPriceBreakRec) ∈
      (tiers.foldl (applyPriceBreakTier existing spPk currency) st).1 := by
  induction tiers generalizing st with
  | nil => cases hmem
  | cons t rest ih =>
    simp only [List.foldl_cons]
    by_cases ht : t.1 = q
    · have ht2 : t.2 = p := huniq t (List.mem_cons_self t rest) ht
      refine priceBreakFold_mem existing spPk currency _ rest _ ?_ ?_
      · have := applyPriceBreakTier_update_mem existing spPk currency st t pb r
          (by rw [ht]; exact hpb) (by rw [ht2]; exact hne) hr (by rw [hrq, ht])
        rw [ht2] at this
        exact this
      · intro t' ht' hq'
        have ht'q : t'.1 = q := by simpa [hrq] using hq'
        simp only [ht'q, hpb]
        exact Or.inr ⟨(huniq t' (List.mem_cons_of_mem t ht') ht'q).symm, trivial⟩
    · have hrest : (q, p) ∈ rest := by
        rcases List.mem_cons.mp hmem with heq | h
        · exact absurd (congrArg Prod.fst heq.symm) ht
        · exact h
      refine ih _ hrest (fun t' ht' => huniq t' (List.mem_cons_of_mem t ht'))
        (applyPriceBreakTier_mem existing spPk currency st t r hr ?_)
      intro habs
      exact absurd (habs.trans hrq) ht

/-- Claim C7: for every candidate quantity→price tier,
`setup_price_breaks` (i) keeps an existing record with an equal price
unchanged, (ii) updates the price (and currency) of an existing record
whose price differs, (iii) creates a record when none exists for that
quantity, (iv) never deletes any existing tier (every stored quantity is
still present afterwards, and a tier absent from the candidate mapping is
untouched), and (v) the informational note flag is set exactly when at
least one tier was created or changed.  The specification scenario — tiers
10↦1.00 and 100↦0.80 against stored tiers 10↦1.00 and 50↦0.90 — creates
tier 100, leaves tier 10 unchanged, and keeps tier 50. -/
theorem price_break_sync_correct :
    (∀ (existing : List SupplierPriceBreakRec) (tiers : List (Nat × ℚ))
        (spPk : Nat) (currency : String) (q : Nat) (p : ℚ)
        (pb r : SupplierPriceBreakRec),
      (q, p) ∈ tiers → (∀ t ∈ tiers, t.1 = q → t.2 = p) →
      pbLookup existing q = some pb → pb.price = p →
      r ∈ existing → r.quantity = q →
      r ∈ (setup_price_breaks spPk currency existing tiers).1) ∧
    (∀ (existing : List SupplierPriceBreakRec) (tiers : List (Nat × ℚ))
        (spPk : Nat) (currency : String) (q : Nat) (p : ℚ)
        (pb r : SupplierPriceBreakRec),
      (q, p) ∈ tiers → (∀ t ∈ tiers, t.1 = q → t.2 = p) →
      pbLookup existing q = some pb → pb.price ≠ p →
      r ∈ existing → r.quantity = q →
      ({ r with price := p, price_currency := currency } :
          SupplierPriceBreakRec) ∈
        (setup_price_breaks spPk currency existing tiers).1) ∧
    (∀ (existing : List SupplierPriceBreakRec) (tiers : List (Nat × ℚ))
        (spPk : Nat) (currency : String) (q : Nat) (p : ℚ),
      (q, p) ∈ tiers → (∀ t ∈ tiers, t.1 = q → t.2 = p) →
      pbLookup existing q = none →
      (⟨spPk, q, p, currency⟩ : SupplierPriceBreakRec) ∈
        (setup_price_breaks spPk currency existing tiers).1) ∧
    (∀ (existing : List SupplierPriceBreakRec) (tiers : List (Nat × ℚ))
        (spPk : Nat) (currency : String) (r : SupplierPriceBreakRec),
      r ∈ existing →
      ∃ r2 ∈ (setup_price_breaks spPk currency existing tiers).1,
        r2.quantity = r.quantity) ∧
    (∀ (existing : List SupplierPriceBreakRec) (tiers : List (Nat × ℚ))
        (spPk : Nat) (currency : String) (r : SupplierPriceBreakRec),
      r ∈ existing → (∀ t ∈ tiers, t.1 ≠ r.quantity) →
      r ∈ (setup_price_breaks spPk currency existing tiers).1) ∧
    (∀ (existing : List SupplierPriceBreakRec) (tiers : List (Nat × ℚ))
        (spPk : Nat) (currency : String),
      (setup_price_breaks spPk currency existing tiers).2 =
        tiers.any (tierChangesB existing)) ∧
    (setup_price_breaks 1 "EUR"
        [⟨1, 10, 1, "EUR"⟩, ⟨1, 50, mkRat 9 10, "EUR"⟩]
        [(10, 1), (100, mkRat 4 5)] =
      ([⟨1, 10, 1, "EUR"⟩, ⟨1, 50, mkRat 9 10, "EUR"⟩, ⟨1, 100, mkRat 4 5, "EUR"⟩],
       true)) := by
  refine ⟨?_, ?_, ?_, ?_, ?_, ?_, by decide⟩
  · intro existing tiers spPk currency q p pb r hmem huniq hpb hprice hr hrq
    refine priceBreakFold_mem existing spPk currency r tiers _ hr ?_
    intro t ht hq1
    rw [hrq] at hq1
    simp only [hq1, hpb]
    exact Or.inl (hprice.trans (huniq t ht hq1).symm)
  · intro existing tiers spPk currency q p pb r hmem huniq hpb hne hr hrq
    exact priceBreakFold_updates existing spPk currency tiers q p pb r _
      hmem hpb hne huniq hr hrq
  · intro existing tiers spPk currency q p hmem huniq hnone
    exact priceBreakFold_creates existing spPk currency tiers q p _
      hmem hnone huniq
  · intro existing tiers spPk currency r hr
    exact priceBreakFold_quantity existing spPk currency tiers _ r hr
  · intro existing tiers spPk currency r hr hout
    refine priceBreakFold_mem existing spPk currency r tiers _ hr ?_
    intro t ht hq1
    exact absurd hq1 (hout t ht)
  · intro existing tiers spPk currency
    unfold setup_price_breaks
    rw [priceBreakFold_flag]
    simp

/-- Witness for claim C7: concrete instantiations of the create and update
conjuncts. -/
theorem price_break_sync_witness :
    (⟨5, 100, mkRat 4 5, "EUR"⟩ : SupplierPriceBreakRec) ∈
      (setup_price_breaks 5 "EUR" [⟨5, 10, 1, "EUR"⟩] [(100, mkRat 4 5)]).1 ∧
    (⟨5, 10, 2, "EUR"⟩ : SupplierPriceBreakRec) ∈
      (setup_price_breaks 5 "EUR" [⟨5, 10, 1, "EUR"⟩] [(10, 2)]).1 :=
  ⟨price_break_sync_correct.2.2.1 [⟨5, 10, 1, "EUR"⟩] [(100, mkRat 4 5)] 5 "EUR"
      100 (mkRat 4 5) (by decide) (by decide) (by decide),
   price_break_sync_correct.2.1 [⟨5, 10, 1, "EUR"⟩] [(10, 2)] 5 "EUR"
      10 2 ⟨5, 10, 1, "EUR"⟩ ⟨5, 10, 1, "EUR"⟩ (by decide) (by decide)
      (by decide) (by decide) (by decide) rfl⟩

/-- Claim C10, counterexample: the claim says `search` returns the true
total result count of the underlying query.  For the keyword query with
products `X1`, `X10`, total count 7 and term `x1`, exactly one exact MPN
match exists, so the source narrows the result to it and returns count 1,
not the query total 7. -/
theorem digikey_count_counterexample :
    (DigiKey.search "EUR" none
        ⟨[mkDKPart "X1", mkDKPart "X10"], 7, [], 0⟩ "x1").2 = 1 ∧
    (7 : Nat) ≠ 1 := by
  exact ⟨by decide, by decide⟩

/-- Claim C10, amended: `search` returns zero or more normalized candidates
plus a display count.  When the result is not narrowed (no product-details
hit, and the exact-MPN matches do not number exactly one) the count is the
underlying query total (the exact-manufacturer count, resp. the full
products count); a product-details hit or a unique exact-MPN match narrows
the result to one candidate with count 1.  Assuming the supplier API
reports totals at least as large as the returned lists, the count is never
smaller than the number of candidates returned — and it can be strictly
larger. -/
theorem digikey_search_count :
    (∀ (currency : String) (pd : Option DKPart) (keyword : DKKeywordResults)
        (term : String),
      keyword.exact_manufacturer_products.length ≤
        keyword.exact_manufacturer_products_count →
      keyword.products.length ≤ keyword.products_count →
      (DigiKey.search currency pd keyword term).1.length ≤
        (DigiKey.search currency pd keyword term).2) ∧
    (∀ (currency : String) (keyword : DKKeywordResults) (term : String),
      0 < keyword.exact_manufacturer_products_count →
      (dkExactMatches term keyword.exact_manufacturer_products).length ≠ 1 →
      DigiKey.search currency none keyword term =
        (keyword.exact_manufacturer_products.map (DigiKey.get_api_part currency),
         keyword.exact_manufacturer_products_count)) ∧
    (∀ (currency : String) (keyword : DKKeywordResults) (term : String),
      keyword.exact_manufacturer_products_count = 0 →
      (dkExactMatches term (dkStartMatches term keyword.products)).length ≠ 1 →
      DigiKey.search currency none keyword term =
        ((dkStartMatches term keyword.products).map
            (DigiKey.get_api_part currency),
         keyword.products_count)) ∧
    ((DigiKey.search "EUR" none ⟨[], 0, [mkDKPart "FOO1"], 5⟩ "foo").2 = 5 ∧
     (DigiKey.search "EUR" none ⟨[], 0, [mkDKPart "FOO1"], 5⟩ "foo").1.length
        = 1) := by
  refine ⟨?_, ?_, ?_, by decide, by decide⟩
  · intro currency pd keyword term hexact hprod
    unfold DigiKey.search
    match pd with
    | some dkp => simp
    | none =>
      simp only
      split
      case isTrue h1 =>
        split
        case isTrue h2 => simp [h2]
        case isFalse h2 =>
          simpa using hexact
      case isFalse h1 =>
        split
        case isTrue h2 => simp [h2]
        case isFalse h2 =>
          simp only [List.length_map]
          exact le_trans (List.length_filter_le _ _) hprod
  · intro currency keyword term h1 h2
    unfold DigiKey.search
    simp only [if_pos h1]
    rw [if_neg h2]
  · intro currency keyword term h1 h2
    unfold DigiKey.search
    simp only [h1, lt_irrefl, if_false]
    rw [if_neg h2]

/-- Witness for claim C10: the count bound at a concrete input. -/
theorem digikey_search_count_witness :
    (DigiKey.search "EUR" none
        ⟨[mkDKPart "A1"], 3, [], 0⟩ "zzz").1.length ≤
      (DigiKey.search "EUR" none ⟨[mkDKPart "A1"], 3, [], 0⟩ "zzz").2 :=
  digikey_search_count.1 "EUR" none ⟨[mkDKPart "A1"], 3, [], 0⟩ "zzz"
    (by decide) (by decide)

theorem matchInnerFold_find (required : List String) (value : String)
    (ts : List String) (m : List (String × String)) (name : String)
    (h : name ∉ ts) :
    ((ts.foldl (fun m tname =>
        if tname ∈ required ∧ (m.find? (fun e => e.1 == tname)).isNone then
          m ++ [(tname, value)]
        else m) m).find? (fun e => e.1 == name)) =
      m.find? (fun e => e.1 == name) := by
  induction ts generalizing m with
  | nil => rfl
  | cons t rest ih =>
    simp only [List.foldl_cons]
    rw [ih _ (fun hx => h (List.mem_cons_of_mem t hx))]
    split
    · have ht : (((t, value) : String × String).1 == name) = false := by
        have : t ≠ name := fun hh => h (hh ▸ List.mem_cons_self t rest)
        simpa using this
      rw [List.find?_append]
      simp [List.find?_cons, ht]
    · rfl

theorem matchPhase_find (pmap : List (String × List String))
    (required : List String) (raw : List (String × String))
    (m : List (String × String)) (name : String)
    (h : ∀ rv ∈ raw, name ∉ dictGet pmap rv.1) :
    (matchPhase pmap required m raw).find? (fun e => e.1 == name) =
      m.find? (fun e => e.1 == name) := by
  induction raw generalizing m with
  | nil => rfl
  | cons rv rest ih =>
    obtain ⟨rawName, value⟩ := rv
    rw [matchPhase]
    rw [ih _ (fun rv2 h2 => h rv2 (List.mem_cons_of_mem _ h2))]
    exact matchInnerFold_find required value _ m name
      (h (rawName, value) (List.mem_cons_self _ _))

theorem interactivePhase_preserves
    (chooser : String → Option String × Option String) (name : String)
    (hch : (chooser name).2 = none) (work : List String) :
    ∀ st : List (String × String) × List String × List (String × List String),
      name ∈ st.2.1 → st.1.find? (fun e => e.1 == name) = none →
      name ∈ (interactivePhase chooser work st).2.1 ∧
        (interactivePhase chooser work st).1.find? (fun e => e.1 == name)
          = none := by
  induction work with
  | nil => intro st h1 h2; exact ⟨h1, h2⟩
  | cons n rest ih =>
    intro st h1 h2
    obtain ⟨matched, unassigned, pmap⟩ := st
    rw [interactivePhase]
    rcases hc : chooser n with ⟨a, v⟩
    cases v with
    | none =>
      exact ih _ h1 h2
    | some value =>
      have hn : n ≠ name := by
        intro he
        rw [he] at hc
        rw [hc] at hch
        simp at hch
      refine ih _ ?_ ?_
      · exact (List.mem_erase_of_ne (Ne.symm hn)).mpr h1
      · have hne : (((n, value) : String × String).1 == name) = false := by
          simpa using hn
        rw [List.find?_append, h2]
        simp [List.find?_cons, hne]

theorem applyParamsPhase_templates (dry upd : Bool) (templates : List String)
    (eps : List ParameterRec) (partPk : Nat) (name : String)
    (matched : List (String × String)) :
    ∀ st : List ParamAction × ImportResult,
      (∀ e ∈ matched, e.1 ≠ name) → (∀ a ∈ st.1, a.template ≠ name) →
      ∀ a ∈ (applyParamsPhase dry upd templates eps partPk matched st).1,
        a.template ≠ name := by
  induction matched with
  | nil => intro st _ hst; exact hst
  | cons e rest ih =>
    intro st hm hst
    obtain ⟨n, v0⟩ := e
    have hn : n ≠ name := hm (n, v0) (List.mem_cons_self _ _)
    have hrest : ∀ e ∈ rest, e.1 ≠ name :=
      fun e he => hm e (List.mem_cons_of_mem _ he)
    rw [applyParamsPhase]
    split
    · exact ih _ hrest hst
    · split
      · split
        · refine ih _ hrest ?_
          intro a ha
          rcases List.mem_append.mp ha with h | h
          · exact hst a h
          · rw [List.mem_singleton.mp h]
            exact hn
        · exact ih _ hrest hst
      · split
        · refine ih _ hrest ?_
          intro a ha
          rcases List.mem_append.mp ha with h | h
          · exact hst a h
          · rw [List.mem_singleton.mp h]
            exact hn
        · split
          · exact ih _ hrest hst
          · exact ih _ hrest hst

theorem or_incomplete_idem (r : ImportResult) :
    (r.or .INCOMPLETE).or .INCOMPLETE = r.or .INCOMPLETE := by
  cases r <;> rfl

theorem applyParamsPhase_result (dry upd : Bool) (templates : List String)
    (eps : List ParameterRec) (partPk : Nat)
    (matched : List (String × String)) :
    ∀ st : List ParamAction × ImportResult,
      (applyParamsPhase dry upd templates eps partPk matched st).2 = st.2 ∨
      (applyParamsPhase dry upd templates eps partPk matched st).2 =
        st.2.or .INCOMPLETE := by
  induction matched with
  | nil => intro st; exact Or.inl rfl
  | cons e rest ih =>
    intro st
    obtain ⟨n, v0⟩ := e
    rw [applyParamsPhase]
    split
    · exact ih st
    · split
      · split
        · exact ih _
        · exact ih _
      · split
        · exact ih _
        · split
          · rcases ih (st.1, st.2.or .INCOMPLETE) with h | h
            · exact Or.inr h
            · rw [h]
              exact Or.inr (or_incomplete_idem st.2)
          · exact ih _

theorem setup_parameters_core_unmatched
    (ctx : ImporterCtx) (db : DB) (partV : PartRec) (api_part : ApiPart)
    (update_existing : Bool) (category : Category) (name : String)
    (hreq : name ∈ category.parameters)
    (hraw : ∀ rv ∈ api_part.parameters, name ∉ dictGet ctx.parameter_map rv.1)
    (hch : (ctx.paramChooser name).2 = none)
    (hset : paramAlreadySet
      (db.parameters.filter (fun q => q.part == partV.pk)) name = false) :
    name ∈ (setup_parameters_core ctx db partV api_part update_existing
        category).unassigned ∧
    (∀ a ∈ (setup_parameters_core ctx db partV api_part update_existing
        category).actions, a.template ≠ name) ∧
    (setup_parameters_core ctx db partV api_part update_existing
        category).result = .INCOMPLETE := by
  unfold setup_parameters_core
  simp only
  set eps := db.parameters.filter (fun p => p.part == partV.pk) with heps
  set M := matchPhase ctx.parameter_map category.parameters []
    api_part.parameters with hM
  set U := category.parameters.filter (fun n =>
    (M.find? (fun e => e.1 == n)).isNone && ! paramAlreadySet eps n) with hU
  set st := (if U ≠ [] ∧ ctx.interactive = true then
      interactivePhase ctx.paramChooser U (M, U, ctx.parameter_map)
    else (M, U, ctx.parameter_map)) with hstdef
  have hm0 : M.find? (fun e => e.1 == name) = none := by
    rw [hM, matchPhase_find ctx.parameter_map category.parameters
      api_part.parameters [] name hraw]
    rfl
  have hu0 : name ∈ U := by
    rw [hU]
    refine List.mem_filter.mpr ⟨hreq, ?_⟩
    rw [hm0]
    rw [heps] at hset
    rw [hset]
    rfl
  have hst : name ∈ st.2.1 ∧ st.1.find? (fun e => e.1 == name) = none := by
    rw [hstdef]
    split
    · exact interactivePhase_preserves ctx.paramChooser name hch _ _ hu0 hm0
    · exact ⟨hu0, hm0⟩
  refine ⟨hst.1, ?_, ?_⟩
  · refine applyParamsPhase_templates ctx.dry_run update_existing
      ctx.parameter_templates _ partV.pk name _ ([], .SUCCESS) ?_
      (fun a ha => absurd ha (List.not_mem_nil a))
    intro e he heq
    have := List.find?_eq_none.mp hst.2 e he
    simp [heq] at this
  · have hnn := List.ne_nil_of_mem hst.1
    rw [if_pos hnn]
    rcases applyParamsPhase_result ctx.dry_run update_existing
        ctx.parameter_templates _ partV.pk _ ([], .SUCCESS) with h | h
    · rw [h]
      rfl
    · rw [h]
      rfl

/-- Claim C6: a category-required parameter name that is matched neither
from the candidate's raw parameters via the alias table nor by interactive
resolution, and that is not already populated on the part, ends up in the
reported unmatched set after all matching attempts, receives no parameter
write at all (the part stays lacking it), and the parameter-reconciliation
result is INCOMPLETE. -/
theorem required_param_unmatched_incomplete
    (ctx : ImporterCtx) (db : DB) (p : PartRec) (api_part : ApiPart)
    (update_existing : Bool) (category : Category) (name : String)
    (hcat : part_category_to_category ctx p.category = some category)
    (hreq : name ∈ category.parameters)
    (hraw : ∀ rv ∈ api_part.parameters, name ∉ dictGet ctx.parameter_map rv.1)
    (hch : (ctx.paramChooser name).2 = none)
    (hset : paramAlreadySet
      (db.parameters.filter (fun q => q.part == p.pk)) name = false) :
    name ∈ (setup_parameters ctx db (some p) api_part
        update_existing).unassigned ∧
    (∀ a ∈ (setup_parameters ctx db (some p) api_part
        update_existing).actions, a.template ≠ name) ∧
    (setup_parameters ctx db (some p) api_part update_existing).result =
      .INCOMPLETE := by
  have hne : ¬ (ctx.dry_run ∧ (some p : Option PartRec) = none) := by simp
  unfold setup_parameters
  rw [if_neg hne]
  simp only [Option.getD_some, hcat]
  exact setup_parameters_core_unmatched ctx db p api_part update_existing
    category name hreq hraw hch hset

/-- Witness for claim C6 at a concrete input. -/
theorem required_param_unmatched_incomplete_witness :
    "Resistance" ∈ (setup_parameters ctxW dbW (some ⟨1, "P1", 5, "", []⟩)
        (mkApiPart "SKU1" "MPN1" [("Foo", "1")]) true).unassigned ∧
    (∀ a ∈ (setup_parameters ctxW dbW (some ⟨1, "P1", 5, "", []⟩)
        (mkApiPart "SKU1" "MPN1" [("Foo", "1")]) true).actions,
      a.template ≠ "Resistance") ∧
    (setup_parameters ctxW dbW (some ⟨1, "P1", 5, "", []⟩)
        (mkApiPart "SKU1" "MPN1" [("Foo", "1")]) true).result =
      .INCOMPLETE :=
  required_param_unmatched_incomplete ctxW dbW ⟨1, "P1", 5, "", []⟩
    (mkApiPart "SKU1" "MPN1" [("Foo", "1")]) true
    ⟨5, "Passives", ["Resistance"]⟩ "Resistance"
    (by decide) (by decide) (by decide) rfl (by decide)

theorem createPart_category (dry : Bool) (db : DB) (k : Nat)
    (ap : ApiPart) : (createPart dry db k ap).1.category = k := by
  unfold createPart
  split <;> rfl

/-- Claim C5: category resolution first tries each path segment from leaf
to root against the category alias table and uses the first segment that
hits, without prompting and without registering an alias; if no segment
matches and the run is non-interactive, resolution fails with FAILURE, no
category alias is created, and the repository is untouched. -/
theorem category_resolution_correct :
    (∀ (ctx : ImporterCtx) (db : DB) (api_part : ApiPart)
        (pre rest : List String) (seg : String) (c : Category),
      api_part.category_path.reverse = pre ++ seg :: rest →
      (∀ s ∈ pre, cmGet ctx.category_map s = none) →
      cmGet ctx.category_map seg = some c →
      get_part db api_part.MPN = none →
      (create_manufacturer_part ctx db api_part none).prompted = false ∧
      (create_manufacturer_part ctx db api_part none).aliasAdded = none ∧
      ∃ mp p,
        (create_manufacturer_part ctx db api_part none).outcome =
          .ok (mp, p) ∧
        p.category = c.part_category) ∧
    (∀ (ctx : ImporterCtx) (db : DB) (api_part : ApiPart),
      ctx.interactive = false →
      (∀ s ∈ api_part.category_path, cmGet ctx.category_map s = none) →
      get_part db api_part.MPN = none →
      create_manufacturer_part ctx db api_part none =
        ⟨.error .FAILURE, db, false, none⟩) := by
  constructor
  · intro ctx db api_part pre rest seg c hdecomp hpre hseg hget
    have hres : resolveCategoryAlias ctx.category_map api_part.category_path
        = some c := by
      unfold resolveCategoryAlias
      rw [hdecomp, List.findSome?_append,
        List.findSome?_eq_none_iff.mpr hpre]
      simp [List.findSome?_cons, hseg]
    have hcmp : create_manufacturer_part ctx db api_part none =
        ⟨.ok ((createMP ctx.dry_run
            (createPart ctx.dry_run db c.part_category api_part).2
            (createPart ctx.dry_run db c.part_category api_part).1.pk
            api_part).1,
          (createPart ctx.dry_run db c.part_category api_part).1),
         (createMP ctx.dry_run
            (createPart ctx.dry_run db c.part_category api_part).2
            (createPart ctx.dry_run db c.part_category api_part).1.pk
            api_part).2, false, none⟩ := by
      simp only [create_manufacturer_part, hget, hres]
    rw [hcmp]
    exact ⟨rfl, rfl, _, _, rfl,
      createPart_category ctx.dry_run db c.part_category api_part⟩
  · intro ctx db api_part hint hall hget
    have hres : resolveCategoryAlias ctx.category_map api_part.category_path
        = none := by
      unfold resolveCategoryAlias
      exact List.findSome?_eq_none_iff.mpr
        (fun s hs => hall s (List.mem_reverse.mp hs))
    simp [create_manufacturer_part, hget, hres, hint]

/-- Witness for claim C5 at concrete inputs. -/
theorem category_resolution_witness :
    ((create_manufacturer_part ctxW dbW
        (mkApiPart "S9" "MPN9" []) none).prompted = false ∧
     (create_manufacturer_part ctxW dbW
        (mkApiPart "S9" "MPN9" []) none).aliasAdded = none ∧
     ∃ mp p,
       (create_manufacturer_part ctxW dbW
          (mkApiPart "S9" "MPN9" []) none).outcome = .ok (mp, p) ∧
       p.category = 5) ∧
    create_manufacturer_part ctxW dbW
        { mkApiPart "S9" "MPN9" [] with category_path := ["Nope"] } none =
      ⟨.error .FAILURE, dbW, false, none⟩ :=
  ⟨category_resolution_correct.1 ctxW dbW (mkApiPart "S9" "MPN9" [])
      [] [] "Passives" ⟨5, "Passives", ["Resistance"]⟩
      (by decide) (by decide) (by decide) (by decide),
   category_resolution_correct.2 ctxW dbW
      { mkApiPart "S9" "MPN9" [] with category_path := ["Nope"] }
      rfl (by decide) (by decide)⟩

/-- Claim C2, counterexample: a supplier-part exists for the candidate's
SKU, so the claim's step (1) applies and demands that its linked
manufacturer-part be reused — but the link is null, and the code instead
falls through to step (2), reusing the manufacturer-part found by MPN
lookup (pk 7).  The stated precedence is `reuseLinked none`, which is not
what the code does. -/
theorem precedence_counterexample :
    statedPrecedence dbNullLink none (mkApiPart "S" "M" []) =
      .reuseLinked none ∧
    get_supplier_part dbNullLink "S" = some ⟨1, "S", 2, none, 5⟩ ∧
    get_manufacturer_part dbNullLink "M" = some ⟨7, "M", 5⟩ ∧
    (resolve_manufacturer_part ctxW dbNullLink none
        (mkApiPart "S" "M" []) none).outcome = .ok (⟨7, "M", 5⟩, none) := by
  refine ⟨by decide, by decide, by decide, rfl⟩

theorem createMP_appends (db : DB) (partPk : Nat) (api : ApiPart) :
    (createMP false db partPk api).2.manufacturer_parts =
      db.manufacturer_parts ++ [(createMP false db partPk api).1] := by
  unfold createMP
  simp

theorem createPart_mps (dry : Bool) (db : DB) (k : Nat) (api : ApiPart) :
    (createPart dry db k api).2.manufacturer_parts =
      db.manufacturer_parts := by
  unfold createPart
  split <;> rfl

theorem updatePartData_mps (dry : Bool) (db : DB) (pk : Nat)
    (api : ApiPart) :
    (updatePartData dry db pk api).manufacturer_parts =
      db.manufacturer_parts := by
  unfold updatePartData
  split <;> rfl

theorem create_manufacturer_part_appends (ctx : ImporterCtx) (db : DB)
    (api : ApiPart) (partArg : Option PartRec) (mp : ManufacturerPartRec)
    (p : PartRec) (hdry : ctx.dry_run = false)
    (hok : (create_manufacturer_part ctx db api partArg).outcome =
      .ok (mp, p)) :
    (create_manufacturer_part ctx db api partArg).db.manufacturer_parts =
      db.manufacturer_parts ++ [mp] := by
  unfold create_manufacturer_part at hok ⊢
  rcases partArg with _ | p0
  · rcases hg : get_part db api.MPN with _ | p0
    · simp only [hg] at hok ⊢
      rcases hres : resolveCategoryAlias ctx.category_map api.category_path
          with _ | c
      · simp only [hres] at hok ⊢
        rcases hint : ctx.interactive with _ | _
        · simp only [hint] at hok
          simp at hok
        · simp only [hint] at hok ⊢
          rw [if_neg (by simp : ¬ (true = false))] at hok ⊢
          rcases hch : ctx.catChooser api.category_path with _ | cat
          · simp only [hch] at hok
            simp at hok
          · simp only [hch, Except.ok.injEq, Prod.mk.injEq] at hok ⊢
            rw [hdry] at hok ⊢
            rw [← hok.1, createMP_appends, createPart_mps]
      · simp only [hres, Except.ok.injEq, Prod.mk.injEq] at hok ⊢
        rw [hdry] at hok ⊢
        rw [← hok.1, createMP_appends, createPart_mps]
    · simp only [hg, Except.ok.injEq, Prod.mk.injEq] at hok ⊢
      rw [hdry] at hok ⊢
      rw [← hok.1, createMP_appends, updatePartData_mps]
  · simp only [Except.ok.injEq, Prod.mk.injEq] at hok ⊢
    rw [hdry] at hok ⊢
    rw [← hok.1, createMP_appends, updatePartData_mps]

/-- Claim C2, amended: the manufacturer-part is determined by this
precedence — (1) a supplier-part existing for the candidate's SKU *with a
non-null manufacturer-part link* wins and that linked manufacturer-part is
reused; (2) else an existing manufacturer-part for the MPN is reused (this
includes the case of a supplier-part with a null link); (3) else the
manufacturer-part established earlier in the same import call is reused;
(4) else, after finalizing the candidate (FAILURE if that fails), a *new*
manufacturer-part is created from the candidate data, attached to: the
externally supplied part if any (whose data is updated), else an existing
part matching the MPN (updated likewise), else a newly created part whose
category comes from category-path resolution. -/
theorem manufacturer_part_precedence :
    (∀ (ctx : ImporterCtx) (db : DB) (est : Option ManufacturerPartRec)
        (api : ApiPart) (partArg : Option PartRec) (sp : SupplierPartRec)
        (mpid : Nat),
      get_supplier_part db api.SKU = some sp →
      sp.manufacturer_part = some mpid →
      resolve_manufacturer_part ctx db est api partArg =
        ⟨.ok (fetchManufacturerPart db mpid, partArg), db, false, none⟩) ∧
    (∀ (ctx : ImporterCtx) (db : DB) (est : Option ManufacturerPartRec)
        (api : ApiPart) (partArg : Option PartRec)
        (mp : ManufacturerPartRec),
      (get_supplier_part db api.SKU = none ∨
        ∃ sp, get_supplier_part db api.SKU = some sp ∧
          sp.manufacturer_part = none) →
      get_manufacturer_part db api.MPN = some mp →
      resolve_manufacturer_part ctx db est api partArg =
        ⟨.ok (mp, partArg), db, false, none⟩) ∧
    (∀ (ctx : ImporterCtx) (db : DB) (e : ManufacturerPartRec)
        (api : ApiPart) (partArg : Option PartRec),
      (get_supplier_part db api.SKU = none ∨
        ∃ sp, get_supplier_part db api.SKU = some sp ∧
          sp.manufacturer_part = none) →
      get_manufacturer_part db api.MPN = none →
      resolve_manufacturer_part ctx db (some e) api partArg =
        ⟨.ok (e, partArg), db, false, none⟩) ∧
    (∀ (ctx : ImporterCtx) (db : DB) (api : ApiPart)
        (partArg : Option PartRec),
      (get_supplier_part db api.SKU = none ∨
        ∃ sp, get_supplier_part db api.SKU = some sp ∧
          sp.manufacturer_part = none) →
      get_manufacturer_part db api.MPN = none →
      api.finalize_ok = false →
      resolve_manufacturer_part ctx db none api partArg =
        ⟨.error .FAILURE, db, false, none⟩) ∧
    (∀ (ctx : ImporterCtx) (db : DB) (api : ApiPart)
        (partArg : Option PartRec) (mp : ManufacturerPartRec) (p : PartRec),
      (get_supplier_part db api.SKU = none ∨
        ∃ sp, get_supplier_part db api.SKU = some sp ∧
          sp.manufacturer_part = none) →
      get_manufacturer_part db api.MPN = none →
      api.finalize_ok = true →
      (create_manufacturer_part ctx db api partArg).outcome = .ok (mp, p) →
      (resolve_manufacturer_part ctx db none api partArg).outcome =
          .ok (mp, some p) ∧
        (resolve_manufacturer_part ctx db none api partArg).db =
          (create_manufacturer_part ctx db api partArg).db ∧
        (ctx.dry_run = false →
          (create_manufacturer_part ctx db api partArg).db.manufacturer_parts
            = db.manufacturer_parts ++ [mp])) ∧
    (∀ (ctx : ImporterCtx) (db : DB) (api : ApiPart) (p0 : PartRec),
      ∃ mp, (create_manufacturer_part ctx db api (some p0)).outcome =
          .ok (mp, { p0 with name := api.MPN }) ∧ mp.part = p0.pk) ∧
    (∀ (ctx : ImporterCtx) (db : DB) (api : ApiPart) (p0 : PartRec),
      get_part db api.MPN = some p0 →
      ∃ mp, (create_manufacturer_part ctx db api none).outcome =
          .ok (mp, { p0 with name := api.MPN }) ∧ mp.part = p0.pk) ∧
    (∀ (ctx : ImporterCtx) (db : DB) (api : ApiPart) (c : Category),
      get_part db api.MPN = none →
      resolveCategoryAlias ctx.category_map api.category_path = some c →
      ∃ mp p, (create_manufacturer_part ctx db api none).outcome =
          .ok (mp, p) ∧ p.category = c.part_category ∧ mp.part = p.pk) := by
  have htail2 : ∀ (ctx : ImporterCtx) (db : DB)
      (est : Option ManufacturerPartRec) (api : ApiPart)
      (partArg : Option PartRec) (mp : ManufacturerPartRec),
      get_manufacturer_part db api.MPN = some mp →
      resolve_manufacturer_part_tail ctx db est api partArg =
        ⟨.ok (mp, partArg), db, false, none⟩ := by
    intro ctx db est api partArg mp h
    unfold resolve_manufacturer_part_tail
    rw [h]
  have hmain : ∀ (ctx : ImporterCtx) (db : DB)
      (est : Option ManufacturerPartRec) (api : ApiPart)
      (partArg : Option PartRec),
      (get_supplier_part db api.SKU = none ∨
        ∃ sp, get_supplier_part db api.SKU = some sp ∧
          sp.manufacturer_part = none) →
      resolve_manufacturer_part ctx db est api partArg =
        resolve_manufacturer_part_tail ctx db est api partArg := by
    intro ctx db est api partArg h
    unfold resolve_manufacturer_part
    rcases h with h | ⟨sp, h1, h2⟩
    · simp only [h]
    · simp only [h1, h2]
  refine ⟨?_, ?_, ?_, ?_, ?_, ?_, ?_, ?_⟩
  · intro ctx db est api partArg sp mpid h1 h2
    unfold resolve_manufacturer_part
    simp only [h1, h2]
  · intro ctx db est api partArg mp hsp hmp
    rw [hmain ctx db est api partArg hsp]
    exact htail2 ctx db est api partArg mp hmp
  · intro ctx db e api partArg hsp hmp
    rw [hmain ctx db (some e) api partArg hsp]
    unfold resolve_manufacturer_part_tail
    simp only [hmp]
  · intro ctx db api partArg hsp hmp hfin
    rw [hmain ctx db none api partArg hsp]
    unfold resolve_manufacturer_part_tail
    simp only [hmp, hfin, if_true]
  · intro ctx db api partArg mp p hsp hmp hfin hok
    rw [hmain ctx db none api partArg hsp]
    unfold resolve_manufacturer_part_tail
    simp only [hmp, hfin, Bool.true_eq_false, if_false, hok]
    exact ⟨trivial, trivial, fun hdry =>
      create_manufacturer_part_appends ctx db api partArg mp p hdry hok⟩
  · intro ctx db api p0
    refine ⟨(createMP ctx.dry_run (updatePartData ctx.dry_run db p0.pk api)
        p0.pk api).1, ?_, ?_⟩
    · simp only [create_manufacturer_part]
    · unfold createMP
      split <;> rfl
  · intro ctx db api p0 hget
    refine ⟨(createMP ctx.dry_run (updatePartData ctx.dry_run db p0.pk api)
        p0.pk api).1, ?_, ?_⟩
    · simp only [create_manufacturer_part, hget]
    · unfold createMP
      split <;> rfl
  · intro ctx db api c hget hres
    refine ⟨(createMP ctx.dry_run
        (createPart ctx.dry_run db c.part_category api).2
        (createPart ctx.dry_run db c.part_category api).1.pk api).1,
      (createPart ctx.dry_run db c.part_category api).1, ?_, ?_, ?_⟩
    · simp only [create_manufacturer_part, hget, hres]
    · exact createPart_category ctx.dry_run db c.part_category api
    · unfold createMP
      split <;> rfl

/-- Witness for claim C2 (amended): concrete instantiations of precedence
steps (1)–(3). -/
theorem manufacturer_part_precedence_witness :
    resolve_manufacturer_part ctxW dbNullLink none (mkApiPart "S" "M" [])
        none =
      ⟨.ok (⟨7, "M", 5⟩, none), dbNullLink, false, none⟩ ∧
    resolve_manufacturer_part ctxW dbNullLink (some ⟨9, "Z", 5⟩)
        (mkApiPart "S2" "Z" []) none =
      ⟨.ok (⟨9, "Z", 5⟩, none), dbNullLink, false, none⟩ :=
  ⟨manufacturer_part_precedence.2.1 ctxW dbNullLink none
      (mkApiPart "S" "M" []) none ⟨7, "M", 5⟩
      (Or.inr ⟨⟨1, "S", 2, none, 5⟩, by decide, rfl⟩) (by decide),
   manufacturer_part_precedence.2.2.1 ctxW dbNullLink ⟨9, "Z", 5⟩
      (mkApiPart "S2" "Z" []) none (Or.inl (by decide)) (by decide)⟩

/-! ## Dry-run behaviour -/

theorem applyParamActions_dry (db : DB) (acts : List ParamAction) :
    applyParamActions true db acts = db := rfl

theorem createSupplierPart_dry (db : DB) (data : SupplierPartRec) :
    createSupplierPart true db data = ({ data with pk := 0 }, db) := rfl

theorem updateSupplierPart_dry (db : DB) (pk : Nat)
    (data : SupplierPartRec) : updateSupplierPart true db pk data = db := rfl

theorem applyPriceBreaksDB_dry (db : DB) (spPk : Nat) (api : ApiPart) :
    applyPriceBreaksDB true db spPk api = db := rfl

theorem addStockDB_dry (db : DB) (l p a : Nat) :
    addStockDB true db l p a = db := rfl

theorem createPart_dry (db : DB) (k : Nat) (api : ApiPart) :
    createPart true db k api = (⟨0, api.MPN, k, "", []⟩, db) := rfl

theorem createMP_dry (db : DB) (partPk : Nat) (api : ApiPart) :
    createMP true db partPk api = (⟨0, api.MPN, partPk⟩, db) := rfl

theorem updatePartData_dry (db : DB) (pk : Nat) (api : ApiPart) :
    updatePartData true db pk api = db := rfl

theorem create_manufacturer_part_dry (ctx : ImporterCtx) (db : DB)
    (api : ApiPart) (part : Option PartRec) (hdry : ctx.dry_run = true) :
    (create_manufacturer_part ctx db api part).db = db := by
  unfold create_manufacturer_part
  rcases part with _ | p0
  · rcases hg : get_part db api.MPN with _ | p0
    · simp only [hg]
      rcases hres : resolveCategoryAlias ctx.category_map api.category_path
          with _ | c
      · simp only [hres]
        rcases hint : ctx.interactive with _ | _
        · simp
        · rw [if_neg (by simp : ¬ (true = false))]
          rcases hch : ctx.catChooser api.category_path with _ | cat
          · simp [hch]
          · simp only [hch, hdry, createPart_dry, createMP_dry]
      · simp only [hres, hdry, createPart_dry, createMP_dry]
    · simp only [hg, hdry, createMP_dry, updatePartData_dry]
  · simp only [hdry, createMP_dry, updatePartData_dry]

theorem resolve_manufacturer_part_tail_dry (ctx : ImporterCtx) (db : DB)
    (est : Option ManufacturerPartRec) (api : ApiPart)
    (part : Option PartRec) (hdry : ctx.dry_run = true) :
    (resolve_manufacturer_part_tail ctx db est api part).db = db := by
  unfold resolve_manufacturer_part_tail
  rcases hmp : get_manufacturer_part db api.MPN with _ | mp
  · simp only [hmp]
    rcases est with _ | e
    · rcases hf : api.finalize_ok with _ | _
      · simp
      · rw [if_neg (by simp : ¬ (true = false))]
        rcases hc : (create_manufacturer_part ctx db api part).outcome
            with r | mp_p
        · simp only [hc]
          exact create_manufacturer_part_dry ctx db api part hdry
        · obtain ⟨mp2, p2⟩ := mp_p
          simp only [hc]
          exact create_manufacturer_part_dry ctx db api part hdry
    · rfl
  · simp only [hmp]

theorem resolve_manufacturer_part_dry (ctx : ImporterCtx) (db : DB)
    (est : Option ManufacturerPartRec) (api : ApiPart)
    (part : Option PartRec) (hdry : ctx.dry_run = true) :
    (resolve_manufacturer_part ctx db est api part).db = db := by
  unfold resolve_manufacturer_part
  rcases hsp : get_supplier_part db api.SKU with _ | sp
  · simp only [hsp]
    exact resolve_manufacturer_part_tail_dry ctx db est api part hdry
  · simp only [hsp]
    rcases hlink : sp.manufacturer_part with _ | mpid
    · exact resolve_manufacturer_part_tail_dry ctx db est api part hdry
    · rfl

theorem setup_parameters_dry (ctx : ImporterCtx) (db : DB)
    (part : Option PartRec) (api : ApiPart) (upd : Bool)
    (hdry : ctx.dry_run = true) :
    (setup_parameters ctx db part api upd).db = db := by
  unfold setup_parameters
  rcases part with _ | p
  · rw [if_pos ⟨hdry, rfl⟩]
  · rw [if_neg (by simp)]
    simp only [Option.getD_some]
    rcases hc : part_category_to_category ctx p.category with _ | c
    · simp only [hc]
    · simp only [hc]
      unfold setup_parameters_core
      simp only [hdry, applyParamActions_dry]

theorem import_supplier_part_dry (ctx : ImporterCtx) (db : DB)
    (est : Option ManufacturerPartRec) (supplier : Nat) (api : ApiPart)
    (partArg : Option PartRec) (loc : Option Nat) (amt : Nat)
    (hdry : ctx.dry_run = true) :
    (import_supplier_part ctx db est supplier api partArg loc amt).db = db ∧
    (import_supplier_part ctx db est supplier api partArg loc
        amt).payload.all (fun d => d.part == 0) = true := by
  have hr := resolve_manufacturer_part_dry ctx db est api partArg hdry
  unfold import_supplier_part
  rcases ho : (resolve_manufacturer_part ctx db est api partArg).outcome
      with r | mp_p
  · simp only [ho]
    exact ⟨hr, rfl⟩
  · obtain ⟨manufacturer_part, partOpt⟩ := mp_p
    simp only [ho, hdry, eq_self_iff_true, if_true, applyPriceBreaksDB_dry]
    have hsp : ∀ upd, (setup_parameters ctx
        (resolve_manufacturer_part ctx db est api partArg).db partOpt api
          upd).db =
        (resolve_manufacturer_part ctx db est api partArg).db :=
      fun upd => setup_parameters_dry ctx _ partOpt api upd hdry
    rcases loc with _ | l
    all_goals rcases hsp0 : get_supplier_part db api.SKU with _ | sp0
    all_goals simp only [hsp0, createSupplierPart_dry,
      updateSupplierPart_dry, applyPriceBreaksDB_dry, addStockDB_dry]
    all_goals split
    all_goals first
      | exact ⟨(hsp _).trans hr, rfl⟩
      | exact ⟨hr, rfl⟩

theorem applyParamsPhase_dry_result (upd : Bool) (templates : List String)
    (eps : List ParameterRec) (partPk : Nat)
    (matched : List (String × String)) :
    ∀ st : List ParamAction × ImportResult,
      (applyParamsPhase true upd templates eps partPk matched st).2 =
        st.2 := by
  induction matched with
  | nil => intro st; rfl
  | cons e rest ih =>
    intro st
    obtain ⟨n, v⟩ := e
    rw [applyParamsPhase]
    split
    · exact ih st
    · split
      · split
        · exact ih _
        · exact ih _
      · split
        · exact ih _
        · split
          case isTrue h => exact absurd rfl h
          case isFalse h => exact ih _

/-- Claim C9, counterexample: for the same repository and candidate (MPN
`M1` reusing manufacturer-part 7, one raw parameter, category requiring
`Resistance`), the non-dry-run call reports INCOMPLETE (required
parameter unmatched) while the dry-run call reports SUCCESS, because
dry-run skips parameter reconciliation entirely when it has no part
object — the reported severities are not the same. -/
theorem dry_run_severity_counterexample :
    (import_supplier_part { ctxC9 with dry_run := true } dbC9 none 2
        (mkApiPart "S1" "M1" [("Foo", "1")]) none none 0).result =
      .SUCCESS ∧
    (import_supplier_part ctxC9 dbC9 none 2
        (mkApiPart "S1" "M1" [("Foo", "1")]) none none 0).result =
      .INCOMPLETE ∧
    ImportResult.SUCCESS ≠ .INCOMPLETE := by
  refine ⟨rfl, rfl, by decide⟩

/-- Claim C9, amended: dry-run disables every mutating repository call —
the repository state after `import_supplier_part` is unchanged — and the
supplier-part payload substitutes the synthetic zero part identifier.
Matching logic still runs, but the reported severities can differ from a
non-dry-run run over the same data: parameter reconciliation is skipped
(returning SUCCESS) whenever dry-run has no concrete part object, and the
missing-template INCOMPLETE degradation is suppressed in dry-run. -/
theorem dry_run_behaviour :
    (∀ (ctx : ImporterCtx) (db : DB) (est : Option ManufacturerPartRec)
        (supplier : Nat) (api : ApiPart) (partArg : Option PartRec)
        (loc : Option Nat) (amt : Nat), ctx.dry_run = true →
      (import_supplier_part ctx db est supplier api partArg loc amt).db =
        db) ∧
    (∀ (ctx : ImporterCtx) (db : DB) (est : Option ManufacturerPartRec)
        (supplier : Nat) (api : ApiPart) (partArg : Option PartRec)
        (loc : Option Nat) (amt : Nat), ctx.dry_run = true →
      (import_supplier_part ctx db est supplier api partArg loc
          amt).payload.all (fun d => d.part == 0) = true) ∧
    (∀ (ctx : ImporterCtx) (db : DB) (api : ApiPart) (upd : Bool),
      ctx.dry_run = true →
      setup_parameters ctx db none api upd =
        ⟨.SUCCESS, db, [], [], ctx.parameter_map⟩) ∧
    (∀ (upd : Bool) (templates : List String) (eps : List ParameterRec)
        (partPk : Nat) (matched : List (String × String))
        (acts : List ParamAction) (r : ImportResult),
      (applyParamsPhase true upd templates eps partPk matched
        (acts, r)).2 = r) := by
  refine ⟨?_, ?_, ?_, ?_⟩
  · intro ctx db est supplier api partArg loc amt h
    exact (import_supplier_part_dry ctx db est supplier api partArg loc
      amt h).1
  · intro ctx db est supplier api partArg loc amt h
    exact (import_supplier_part_dry ctx db est supplier api partArg loc
      amt h).2
  · intro ctx db api upd h
    unfold setup_parameters
    rw [if_pos ⟨h, rfl⟩]
  · intro upd templates eps partPk matched acts r
    exact applyParamsPhase_dry_result upd templates eps partPk matched
      (acts, r)

/-- Witness for claim C9 (amended) at a concrete input. -/
theorem dry_run_behaviour_witness :
    (import_supplier_part { ctxC9 with dry_run := true } dbC9 none 2
        (mkApiPart "S1" "M1" [("Foo", "1")]) none none 0).db = dbC9 ∧
    (import_supplier_part { ctxC9 with dry_run := true } dbC9 none 2
        (mkApiPart "S1" "M1" [("Foo", "1")]) none none 0).payload.all
      (fun d => d.part == 0) = true :=
  ⟨dry_run_behaviour.1 { ctxC9 with dry_run := true } dbC9 none 2
      (mkApiPart "S1" "M1" [("Foo", "1")]) none none 0 rfl,
   dry_run_behaviour.2.1 { ctxC9 with dry_run := true } dbC9 none 2
      (mkApiPart "S1" "M1" [("Foo", "1")]) none none 0 rfl⟩

theorem error_or_failure : ImportResult.ERROR.or .FAILURE = .ERROR := rfl

theorem import_part_loop_append (step : ImportStep) (int : Bool)
    (maxR : Nat) (ch : List ApiPart → Option ApiPart) :
    ∀ (pre post : List SupplierSearch) (st : OrchState) (idx : Nat),
      (import_part_loop step int maxR ch st idx pre).result ≠ .ERROR →
      import_part_loop step int maxR ch st idx (pre ++ post) =
        import_part_loop step int maxR ch
          (import_part_loop step int maxR ch st idx pre)
          (idx + pre.length) post := by
  intro pre
  induction pre with
  | nil =>
    intro post st idx _
    simp [import_part_loop]
  | cons s pre ih =>
    intro post st idx h
    rw [List.cons_append]
    rw [import_part_loop] at h ⊢
    conv_rhs => rw [import_part_loop]
    rcases hsel : selectCandidate int maxR ch s.results with _ | _ | p
    all_goals simp only [hsel] at h ⊢
    · rw [ih post _ (idx + 1) h]
      simp only [List.length_cons]
      congr 1
      omega
    · rw [ih post _ (idx + 1) h]
      simp only [List.length_cons]
      congr 1
      omega
    · rcases hstep : step st.db st.established s.supplier p with u | rds
      all_goals simp only [hstep] at h ⊢
      · simp at h
      · split at h
        case isTrue ht =>
          simp at h
        case isFalse ht =>
          rw [if_neg ht, if_neg ht]
          rw [ih post _ (idx + 1) h]
          simp only [List.length_cons]
          congr 1
          omega

theorem import_part_loop_events (step : ImportStep) (int : Bool)
    (maxR : Nat) (ch : List ApiPart → Option ApiPart) :
    ∀ (l : List SupplierSearch) (st : OrchState) (idx : Nat),
      ∃ suf, (import_part_loop step int maxR ch st idx l).events =
        st.events ++ suf := by
  intro l
  induction l with
  | nil => intro st idx; exact ⟨[], (List.append_nil _).symm⟩
  | cons s rest ih =>
    intro st idx
    rw [import_part_loop]
    rcases hsel : selectCandidate int maxR ch s.results with _ | _ | p
    all_goals simp only [hsel]
    · obtain ⟨suf, hsuf⟩ :=
        ih ⟨st.result, st.db, st.established, st.events ++ [.got idx]⟩
          (idx + 1)
      exact ⟨[.got idx] ++ suf, by rw [hsuf]; simp⟩
    · obtain ⟨suf, hsuf⟩ :=
        ih ⟨st.result.or .INCOMPLETE, st.db, st.established,
          st.events ++ [.got idx]⟩ (idx + 1)
      exact ⟨[.got idx] ++ suf, by rw [hsuf]; simp⟩
    · rcases hstep : step st.db st.established s.supplier p with u | rds
      all_goals simp only [hstep]
      · exact ⟨[.got idx, .attempted idx, .waitedAll], by simp⟩
      · split
        · exact ⟨[.got idx, .attempted idx, .waitedAll], by simp⟩
        · obtain ⟨suf, hsuf⟩ :=
            ih ⟨st.result.or rds.1, rds.2.1, rds.2.2,
              st.events ++ [.got idx] ++ [.attempted idx]⟩ (idx + 1)
          exact ⟨[.got idx, .attempted idx] ++ suf, by rw [hsuf]; simp⟩

theorem import_part_loop_got (step : ImportStep) (int : Bool) (maxR : Nat)
    (ch : List ApiPart → Option ApiPart) (s : SupplierSearch)
    (rest : List SupplierSearch) (st : OrchState) (idx : Nat) :
    .got idx ∈ (import_part_loop step int maxR ch st idx
      (s :: rest)).events := by
  rw [import_part_loop]
  rcases hsel : selectCandidate int maxR ch s.results with _ | _ | p
  all_goals simp only [hsel]
  · obtain ⟨suf, hsuf⟩ := import_part_loop_events step int maxR ch rest
      ⟨st.result, st.db, st.established, st.events ++ [.got idx]⟩ (idx + 1)
    rw [hsuf]
    simp
  · obtain ⟨suf, hsuf⟩ := import_part_loop_events step int maxR ch rest
      ⟨st.result.or .INCOMPLETE, st.db, st.established,
        st.events ++ [.got idx]⟩ (idx + 1)
    rw [hsuf]
    simp
  · rcases hstep : step st.db st.established s.supplier p with u | rds
    all_goals simp only [hstep]
    · simp
    · split
      · simp
      · obtain ⟨suf, hsuf⟩ := import_part_loop_events step int maxR ch rest
          ⟨st.result.or rds.1, rds.2.1, rds.2.2,
            st.events ++ [.got idx] ++ [.attempted idx]⟩ (idx + 1)
        rw [hsuf]
        simp

/-- Claim C3: when importing one supplier's selected candidate raises an
HTTP-level error, `import_part` catches it, downgrades the severity to
ERROR, and returns ERROR with no further supplier processed (the event
trace ends with the drain event, which waits on every still-outstanding
concurrent search call) — while a FAILURE or INCOMPLETE outcome continues
with the next supplier (whose results are still collected). -/
theorem error_aborts_after_drain :
    (∀ (step : ImportStep) (int : Bool) (maxR : Nat)
        (ch : List ApiPart → Option ApiPart) (db : DB)
        (pre post : List SupplierSearch) (s : SupplierSearch) (p : ApiPart),
      (import_part_loop step int maxR ch ⟨.SUCCESS, db, none, []⟩ 0
          pre).result ≠ .ERROR →
      selectCandidate int maxR ch s.results = .chosen p →
      step
        (import_part_loop step int maxR ch ⟨.SUCCESS, db, none, []⟩ 0
          pre).db
        (import_part_loop step int maxR ch ⟨.SUCCESS, db, none, []⟩ 0
          pre).established s.supplier p = .error () →
      import_part step int maxR ch db (pre ++ s :: post) =
        { result := .ERROR,
          db := (import_part_loop step int maxR ch ⟨.SUCCESS, db, none, []⟩
            0 pre).db,
          established := (import_part_loop step int maxR ch
            ⟨.SUCCESS, db, none, []⟩ 0 pre).established,
          events := (import_part_loop step int maxR ch
            ⟨.SUCCESS, db, none, []⟩ 0 pre).events ++
            [.got pre.length, .attempted pre.length, .waitedAll] }) ∧
    (∀ (step : ImportStep) (int : Bool) (maxR : Nat)
        (ch : List ApiPart → Option ApiPart) (st : OrchState) (idx : Nat)
        (s s2 : SupplierSearch) (rest : List SupplierSearch) (p : ApiPart)
        (r2 : ImportResult) (db2 : DB)
        (est2 : Option ManufacturerPartRec),
      selectCandidate int maxR ch s.results = .chosen p →
      step st.db st.established s.supplier p = .ok (r2, db2, est2) →
      st.result.or r2 ≠ .ERROR →
      .got (idx + 1) ∈
        (import_part_loop step int maxR ch st idx
          (s :: s2 :: rest)).events) := by
  constructor
  · intro step int maxR ch db pre post s p h hsel hstep
    unfold import_part
    rw [import_part_loop_append step int maxR ch pre (s :: post) _ 0 h]
    rw [import_part_loop]
    simp only [hsel]
    rw [Nat.zero_add]
    simp only [hstep]
    split
    · simp [error_or_failure, List.append_assoc]
    · simp [List.append_assoc]
  · intro step int maxR ch st idx s s2 rest p r2 db2 est2 hsel hstep hne
    rw [import_part_loop]
    simp only [hsel, hstep]
    rw [if_neg hne]
    exact import_part_loop_got step int maxR ch s2 rest _ (idx + 1)

/-- Witness for claim C3: a two-supplier run whose first supplier raises,
and a two-supplier run whose first supplier fails softly. -/
theorem error_aborts_after_drain_witness :
    import_part (fun _ _ _ _ => .error ()) false 5 (fun _ => none) dbW
        [⟨21, [mkApiPart "SA" "MA" []], 1⟩,
         ⟨22, [mkApiPart "SB" "MB" []], 1⟩] =
      { result := .ERROR, db := dbW, established := none,
        events := [.got 0, .attempted 0, .waitedAll] } ∧
    .got 1 ∈ (import_part_loop
        (fun db _ _ _ => .ok (.FAILURE, db, none)) false 5 (fun _ => none)
        ⟨.SUCCESS, dbW, none, []⟩ 0
        [⟨21, [mkApiPart "SA" "MA" []], 1⟩,
         ⟨22, [mkApiPart "SB" "MB" []], 1⟩]).events := by
  constructor
  · have h := error_aborts_after_drain.1 (fun _ _ _ _ => .error ()) false 5
      (fun _ => none) dbW [] [⟨22, [mkApiPart "SB" "MB" []], 1⟩]
      ⟨21, [mkApiPart "SA" "MA" []], 1⟩ (mkApiPart "SA" "MA" [])
      (by decide) rfl rfl
    exact h
  · exact error_aborts_after_drain.2
      (fun db _ _ _ => .ok (.FAILURE, db, none)) false 5 (fun _ => none)
      ⟨.SUCCESS, dbW, none, []⟩ 0 ⟨21, [mkApiPart "SA" "MA" []], 1⟩
      ⟨22, [mkApiPart "SB" "MB" []], 1⟩ [] (mkApiPart "SA" "MA" [])
      .FAILURE dbW none rfl rfl (by decide)

/-! ## Cross-supplier consolidation of the established manufacturer-part -/

theorem resolve_established_reuse (ctx : ImporterCtx) (db : DB)
    (e : ManufacturerPartRec) (api : ApiPart) (partArg : Option PartRec)
    (hsku : get_supplier_part db api.SKU = none)
    (hmpn : get_manufacturer_part db api.MPN = none) :
    resolve_manufacturer_part ctx db (some e) api partArg =
      ⟨.ok (e, partArg), db, false, none⟩ := by
  unfold resolve_manufacturer_part resolve_manufacturer_part_tail
  simp only [hsku, hmpn]

theorem applyParamAction_sps (db : DB) (a : ParamAction) :
    (applyParamAction db a).supplier_parts = db.supplier_parts := by
  cases a <;> rfl

theorem applyParamActions_sps (dry : Bool) (db : DB)
    (acts : List ParamAction) :
    (applyParamActions dry db acts).supplier_parts = db.supplier_parts := by
  unfold applyParamActions
  split
  · rfl
  · induction acts generalizing db with
    | nil => rfl
    | cons a rest ih =>
      rw [List.foldl_cons, ih (applyParamAction db a)]
      exact applyParamAction_sps db a

theorem setup_parameters_sps (ctx : ImporterCtx) (db : DB)
    (part : Option PartRec) (api : ApiPart) (upd : Bool) :
    (setup_parameters ctx db part api upd).db.supplier_parts =
      db.supplier_parts := by
  unfold setup_parameters
  split
  · rfl
  · rcases hc : part_category_to_category ctx
        ((part.getD ⟨0, "", 0, "", []⟩).category) with _ | c
    · simp only [hc]
    · simp only [hc]
      unfold setup_parameters_core
      exact applyParamActions_sps ctx.dry_run db _

theorem updatePartData_sps (dry : Bool) (db : DB) (pk : Nat)
    (api : ApiPart) :
    (updatePartData dry db pk api).supplier_parts = db.supplier_parts := by
  unfold updatePartData
  split <;> rfl

theorem setPartImage_sps (dry : Bool) (db : DB) (pk : Nat) (url : String) :
    (setPartImage dry db pk url).supplier_parts = db.supplier_parts := by
  unfold setPartImage
  split <;> rfl

theorem addDatasheetAttachment_sps (dry : Bool) (db : DB) (pk : Nat) :
    (addDatasheetAttachment dry db pk).supplier_parts =
      db.supplier_parts := by
  unfold addDatasheetAttachment
  split <;> rfl

theorem applyPriceBreaksDB_sps (dry : Bool) (db : DB) (spPk : Nat)
    (api : ApiPart) :
    (applyPriceBreaksDB dry db spPk api).supplier_parts =
      db.supplier_parts := by
  unfold applyPriceBreaksDB
  split <;> rfl

theorem addStockDB_sps (dry : Bool) (db : DB) (l p a : Nat) :
    (addStockDB dry db l p a).supplier_parts = db.supplier_parts := by
  unfold addStockDB
  split <;> rfl

theorem createSupplierPart_sps (db : DB) (data : SupplierPartRec) :
    (createSupplierPart false db data).2.supplier_parts =
      db.supplier_parts ++ [{ data with pk := db.next_pk }] := by
  unfold createSupplierPart
  simp

theorem import_established_reuse (ctx : ImporterCtx) (db : DB)
    (e : ManufacturerPartRec) (supplier : Nat) (api : ApiPart)
    (loc : Option Nat) (amt : Nat)
    (hsku : get_supplier_part db api.SKU = none)
    (hmpn : get_manufacturer_part db api.MPN = none)
    (hdry : ctx.dry_run = false) :
    (import_supplier_part ctx db (some e) supplier api none loc
        amt).established = some e ∧
    ∃ spNew ∈ (import_supplier_part ctx db (some e) supplier api none loc
        amt).db.supplier_parts,
      spNew.SKU = api.SKU ∧ spNew.manufacturer_part = some e.pk := by
  have hres := resolve_established_reuse ctx db e api none hsku hmpn
  unfold import_supplier_part
  simp only [hres, hdry, hsku, bne_self_eq_false, Bool.false_eq_true,
    false_and, if_false]
  constructor
  · trivial
  · rcases loc with _ | l
    all_goals simp only [addStockDB_sps, applyPriceBreaksDB_sps,
      createSupplierPart_sps]
    all_goals exact ⟨_, List.mem_append_right _ (List.mem_singleton.mpr rfl),
      rfl, rfl⟩

/-- Claim C1, counterexample: within one `import_part` call over
`searchesC1`, the first candidate establishes the newly created
manufacturer-part 101, but the second candidate (whose SKU already
exists) overwrites the established manufacturer-part with 7 — so two
distinct manufacturer-parts are each "the established one" during the
call — and the third candidate, whose SKU has no existing supplier-part
and whose MPN has no existing manufacturer-part, reuses the most recent
one (7), not the first-established one (101): its supplier-part links
manufacturer-part 7. -/
theorem consolidation_counterexample :
    (import_part_loop (realStep ctxW none none 0) false 5 (fun _ => none)
        ⟨.SUCCESS, dbC1, none, []⟩ 0
        [⟨11, [mkApiPart "S1" "M1" []], 1⟩]).established =
      some ⟨101, "M1", 100⟩ ∧
    (import_part (realStep ctxW none none 0) false 5 (fun _ => none) dbC1
        searchesC1).established = some ⟨7, "M2", 5⟩ ∧
    (⟨101, "M1", 100⟩ : ManufacturerPartRec) ≠ ⟨7, "M2", 5⟩ ∧
    get_supplier_part (import_part (realStep ctxW none none 0) false 5
        (fun _ => none) dbC1 searchesC1).db "S3" =
      some ⟨103, "S3", 13, some 7, 5⟩ ∧
    (some 7 : Option Nat) ≠ some 101 := by
  refine ⟨rfl, rfl, by decide, rfl, by decide⟩

/-- Claim C1, amended: `import_part` tracks a single *current* established
manufacturer-part, overwritten after every successfully imported candidate
(the most recent one wins).  A candidate whose SKU has no existing
supplier-part and whose MPN has no existing manufacturer-part reuses the
most recently established manufacturer-part: the resolution returns it
unchanged, and (outside dry-run) the candidate's supplier-part is written
referencing it.  In particular, two suppliers returning candidates for
the same previously-unknown MPN yield exactly one manufacturer-part and
one part, with both supplier-parts referencing that manufacturer-part. -/
theorem cross_supplier_consolidation :
    (∀ (ctx : ImporterCtx) (db : DB) (e : ManufacturerPartRec)
        (api : ApiPart) (partArg : Option PartRec),
      get_supplier_part db api.SKU = none →
      get_manufacturer_part db api.MPN = none →
      resolve_manufacturer_part ctx db (some e) api partArg =
        ⟨.ok (e, partArg), db, false, none⟩) ∧
    (∀ (ctx : ImporterCtx) (db : DB) (e : ManufacturerPartRec)
        (supplier : Nat) (api : ApiPart) (loc : Option Nat) (amt : Nat),
      get_supplier_part db api.SKU = none →
      get_manufacturer_part db api.MPN = none →
      ctx.dry_run = false →
      (import_supplier_part ctx db (some e) supplier api none loc
          amt).established = some e ∧
      ∃ spNew ∈ (import_supplier_part ctx db (some e) supplier api none loc
          amt).db.supplier_parts,
        spNew.SKU = api.SKU ∧ spNew.manufacturer_part = some e.pk) ∧
    ((import_part (realStep ctxW none none 0) false 5 (fun _ => none)
        ⟨[], [], [], [], [], [], 100⟩
        [⟨21, [mkApiPart "SA" "MX" []], 1⟩,
         ⟨22, [mkApiPart "SB" "MX" []], 1⟩]).db.manufacturer_parts =
        [⟨101, "MX", 100⟩] ∧
     (import_part (realStep ctxW none none 0) false 5 (fun _ => none)
        ⟨[], [], [], [], [], [], 100⟩
        [⟨21, [mkApiPart "SA" "MX" []], 1⟩,
         ⟨22, [mkApiPart "SB" "MX" []], 1⟩]).db.parts =
        [⟨100, "MX", 5, "", []⟩] ∧
     (import_part (realStep ctxW none none 0) false 5 (fun _ => none)
        ⟨[], [], [], [], [], [], 100⟩
        [⟨21, [mkApiPart "SA" "MX" []], 1⟩,
         ⟨22, [mkApiPart "SB" "MX" []], 1⟩]).db.supplier_parts =
        [⟨102, "SA", 21, some 101, 100⟩,
         ⟨103, "SB", 22, some 101, 100⟩]) := by
  refine ⟨?_, ?_, rfl, rfl, rfl⟩
  · intro ctx db e api partArg hsku hmpn
    exact resolve_established_reuse ctx db e api partArg hsku hmpn
  · intro ctx db e supplier api loc amt hsku hmpn hdry
    exact import_established_reuse ctx db e supplier api loc amt hsku hmpn
      hdry

/-- Witness for claim C1 (amended) at a concrete input. -/
theorem cross_supplier_consolidation_witness :
    resolve_manufacturer_part ctxW dbW (some ⟨9, "Z", 5⟩)
        (mkApiPart "SX" "Z9" []) none =
      ⟨.ok (⟨9, "Z", 5⟩, none), dbW, false, none⟩ :=
  cross_supplier_consolidation.1 ctxW dbW ⟨9, "Z", 5⟩
    (mkApiPart "SX" "Z9" []) none (by decide) (by decide)

end InvTreeImport

